import Mathlib

/-!
Verification development for the AIEarningsAnalyst claim-verification engine.

This file shallowly embeds the Python modules
`backend/services/extraction/normalizer.py`,
`backend/services/verification/{compute,tolerances,metric_catalog,period_resolver,verdict_engine}.py`,
`backend/services/misleading/heuristics.py`, and the batch reducer
`_downgrade_conflicting_mismatches` from `backend/services/pipeline.py`.

Modelling conventions:
* Python floats are modelled as exact rationals (ℚ).  The sentinel
  `float("inf")` that the engine can store in `difference_pct` is modelled by
  the two-constructor type `RF` (finite rational or infinity).
* Python dict fields that may be absent are modelled as `Option`.  A stored
  `None` and an absent key are identified whenever the code treats them the
  same (`dict.get` with a default); where the code would raise a `TypeError`
  on a `None` numeric value, the embedding returns `Except.error ()`.
* The engine's human-readable explanation strings are interpolated f-strings;
  the embedding keeps the identity of each message template (one
  `Explanation` constructor per template, with the structurally relevant
  arguments as payloads) but does not model numeric text formatting.
  The `computation_steps` / `computation_detail` trace strings are likewise
  not modelled.
* Python regular-expression searches are modelled by an executable token
  matcher (`matchToks`); optional regex suffixes that cannot change whether
  an unanchored search succeeds (for example a trailing `s?` at the end of a
  pattern) are dropped, and `x(?:y)?` alternation is expanded into explicit
  alternative lists.
-/

namespace EarningsAnalyst

/-! ## Basic Python-style string helpers -/

/-- Whitespace characters matched by Python's `\s` (ASCII range). -/
def isPySpace (c : Char) : Bool :=
  c = ' ' || c = '\t' || c = '\n' || c = '\r' || c = '\x0b' || c = '\x0c'

/-- Python `str.strip()` on a character list. -/
def stripChars (l : List Char) : List Char :=
  ((l.dropWhile isPySpace).reverse.dropWhile isPySpace).reverse

/-- Python `str.lower()` (ASCII). -/
def pyLower (s : String) : String := String.mk (s.data.map Char.toLower)

/-- Python `str.upper()` (ASCII). -/
def pyUpper (s : String) : String := String.mk (s.data.map Char.toUpper)

/-- `needle` occurs as a contiguous sublist of `hay` (Python `in` on str). -/
def listIsInit : List Char → List Char → Bool
  | [], _ => true
  | _ :: _, [] => false
  | a :: as, b :: bs => a = b && listIsInit as bs

/-- Python `needle in hay` (substring containment). -/
def containsSub (hay needle : List Char) : Bool :=
  listIsInit needle hay ||
    match hay with
    | [] => false
    | _ :: t => containsSub t needle

/-- Substring containment on `String`s. -/
def strIn (needle hay : String) : Bool := containsSub hay.data needle.data

/-! ## Mini regex engine

Tokens: a single character from a class (`cls`), one-or-more whitespace
(`ws1`, Python `\s+`), zero-or-more whitespace (`ws0`, Python `\s*`) and
one-or-more digits (`digits1`, Python `\d+`).  A pattern is a list of
alternatives; each alternative is a token sequence.  Literal text is encoded
as a sequence of singleton classes. -/

inductive Tok where
  | cls : List Char → Tok
  | ws1 : Tok
  | ws0 : Tok
  | digits1 : Tok
deriving DecidableEq

/-- Literal text as a token sequence. -/
def litT (s : String) : List Tok := s.data.map (fun c => Tok.cls [c])

/-- A keyword from `SEGMENT_KEYWORDS`, compiled as in `_keyword_to_regex`:
each space becomes `\s+`, other characters are literal. -/
def kwToks (kw : String) : List Tok :=
  kw.data.map (fun c => if c = ' ' then Tok.ws1 else Tok.cls [c])

/-- All remainders after matching the token sequence at the head of `s`. -/
def matchToks : List Tok → List Char → List (List Char)
  | [], s => [s]
  | Tok.cls cs :: ts, s =>
    match s with
    | [] => []
    | c :: r => if cs.contains c then matchToks ts r else []
  | Tok.ws1 :: ts, s =>
    match s with
    | [] => []
    | c :: r =>
      if isPySpace c then matchToks ts r ++ matchToks (Tok.ws1 :: ts) r else []
  | Tok.ws0 :: ts, s =>
    match s with
    | [] => matchToks ts []
    | c :: r =>
      if isPySpace c then matchToks ts r ++ matchToks (Tok.ws0 :: ts) r
      else matchToks ts (c :: r)
  | Tok.digits1 :: ts, s =>
    match s with
    | [] => []
    | c :: r =>
      if c.isDigit then matchToks ts r ++ matchToks (Tok.digits1 :: ts) r else []
termination_by ts s => (s.length, ts.length)

/-- Some alternative matches at the head of `s`. -/
def altsMatchHere (alts : List (List Tok)) (s : List Char) : Bool :=
  alts.any (fun a => !(matchToks a s).isEmpty)

/-- Unanchored search (Python `re.search`): some alternative matches at some
position of `s`. -/
def reSearch (alts : List (List Tok)) (s : List Char) : Bool :=
  altsMatchHere alts s ||
    match s with
    | [] => false
    | _ :: t => reSearch alts t

/-- Search with boundary conditions on the characters immediately before and
after the match (for lookbehind/lookahead character classes and `\b`).
`bad` holds for characters that must NOT appear at the boundary. -/
def boundedSearchGo (alts : List (List Tok)) (bad : Char → Bool) :
    Option Char → List Char → Bool
  | prev, s =>
    ((match prev with | none => true | some c => !bad c) &&
      alts.any (fun a => (matchToks a s).any (fun rest =>
        match rest with
        | [] => true
        | c :: _ => !bad c))) ||
    match s with
    | [] => false
    | c :: t => boundedSearchGo alts bad (some c) t

def boundedSearch (alts : List (List Tok)) (bad : Char → Bool) (s : List Char) : Bool :=
  boundedSearchGo alts bad none s

/-- The class `[a-z0-9]` under `re.IGNORECASE` (lookaround of
`_keyword_to_regex`). -/
def isLowerAlnumCI (c : Char) : Bool :=
  ('a' ≤ c.toLower && c.toLower ≤ 'z') || c.isDigit

/-- Python `\w` (ASCII): `[a-zA-Z0-9_]`. -/
def isWordChar (c : Char) : Bool :=
  ('a' ≤ c && c ≤ 'z') || ('A' ≤ c && c ≤ 'Z') || c.isDigit || c = '_'

/-! ## normalizer.py -/

/-- `SCALE_MULTIPLIERS.get(scale, 1)`: the dict maps the five scale names and
`None`; unknown strings fall back to the `.get` default 1. -/
def scaleMultiplier : Option String → ℚ
  | some "ones" => 1
  | some "thousands" => 1000
  | some "millions" => 1000000
  | some "billions" => 1000000000
  | some "trillions" => 1000000000000
  | none => 1
  | some _ => 1

/-- `normalize_claimed_value`.  A `None` claimed value raises a `TypeError`
exactly where Python would apply an arithmetic operation to it
(`claimed_value / 100` and `claimed_value * multiplier`); the pass-through
branches return it unchanged. -/
def normalize_claimed_value (claimed_value : Option ℚ) (unit : String)
    (scale : Option String) : Except Unit (Option ℚ) :=
  if unit = "percent" then .ok claimed_value
  else if unit = "basis_points" then
    match claimed_value with
    | some x => .ok (some (x / 100))
    | none => .error ()
  else if unit = "per_share" then .ok claimed_value
  else if unit = "ratio" then .ok claimed_value
  else
    match claimed_value with
    | some x => .ok (some (x * scaleMultiplier scale))
    | none => .error ()

/-- Read four leading digits (`\d{4}`, unanchored on the right). -/
def read4Digits : List Char → Option Int
  | a :: b :: c :: d :: _ =>
    if a.isDigit && b.isDigit && c.isDigit && d.isDigit then
      some (((a.toNat - 48) * 1000 + (b.toNat - 48) * 100 +
             (c.toNat - 48) * 10 + (d.toNat - 48) : Nat) : Int)
    else none
  | _ => none

/-- `\s*` (greedy; the following token is never whitespace in the period
patterns, so greediness is deterministic). -/
def dropPySpaces (l : List Char) : List Char := l.dropWhile isPySpace

/-- `(?:FY)?` before a digit group: deterministic because `F` is not a
digit. -/
def dropFYopt : List Char → List Char
  | 'F' :: 'Y' :: r => r
  | l => l

/-- `(?:YEAR\s*)?` before a digit group. -/
def dropYEARopt : List Char → List Char
  | 'Y' :: 'E' :: 'A' :: 'R' :: r => dropPySpaces r
  | l => l

/-- `re.match(r"Q(\d)\s*(?:FY)?(\d{4})", s)`. -/
def matchQnYYYY : List Char → Option (Int × Int)
  | 'Q' :: d :: rest =>
    if d.isDigit then
      match read4Digits (dropFYopt (dropPySpaces rest)) with
      | some y => some (y, ((d.toNat - 48 : Nat) : Int))
      | none => none
    else none
  | _ => none

/-- `re.match(r"(\d)Q\s*(?:FY)?(\d{4})", s)`. -/
def matchNQYYYY : List Char → Option (Int × Int)
  | d :: 'Q' :: rest =>
    if d.isDigit then
      match read4Digits (dropFYopt (dropPySpaces rest)) with
      | some y => some (y, ((d.toNat - 48 : Nat) : Int))
      | none => none
    else none
  | _ => none

/-- `re.match(r"(\d)Q(\d{2})$", s)` (anchored at the end). -/
def matchNQYY : List Char → Option (Int × Int)
  | [d, 'Q', a, b] =>
    if d.isDigit && a.isDigit && b.isDigit then
      some ((2000 + ((a.toNat - 48) * 10 + (b.toNat - 48) : Nat) : Int),
            ((d.toNat - 48 : Nat) : Int))
    else none
  | _ => none

/-- `re.match(r"FY\s*(\d{4})", s)`. -/
def matchFYYYYY : List Char → Option (Int × Int)
  | 'F' :: 'Y' :: rest =>
    match read4Digits (dropPySpaces rest) with
    | some y => some (y, 0)
    | none => none
  | _ => none

/-- `re.match(r"FISCAL\s*(?:YEAR\s*)?(\d{4})", s)`. -/
def matchFISCAL : List Char → Option (Int × Int)
  | 'F' :: 'I' :: 'S' :: 'C' :: 'A' :: 'L' :: rest =>
    match read4Digits (dropYEARopt (dropPySpaces rest)) with
    | some y => some (y, 0)
    | none => none
  | _ => none

/-- `parse_period`: quarter 0 means full year. -/
def parse_period (period_str : String) : Option (Int × Int) :=
  if period_str = "" then none
  else
    let cs := (stripChars period_str.data).map Char.toUpper
    match matchQnYYYY cs with
    | some r => some r
    | none =>
      match matchNQYYYY cs with
      | some r => some r
      | none =>
        match matchNQYY cs with
        | some r => some r
        | none =>
          match matchFYYYYY cs with
          | some r => some r
          | none => matchFISCAL cs

/-! ## tolerances.py -/

structure Tol where
  tight : ℚ
  loose : ℚ
  approx : ℚ
deriving DecidableEq

/-- The `TOLERANCES` table. -/
def TOLERANCES (metric : String) : Option Tol :=
  if metric = "revenue" then some ⟨0.005, 0.02, 0.05⟩
  else if metric = "net_income" then some ⟨0.01, 0.03, 0.05⟩
  else if metric = "eps_basic" then some ⟨0.01, 0.02, 0.05⟩
  else if metric = "eps_diluted" then some ⟨0.01, 0.02, 0.05⟩
  else if metric = "gross_profit" then some ⟨0.005, 0.02, 0.05⟩
  else if metric = "gross_margin" then some ⟨0.003, 0.01, 0.02⟩
  else if metric = "operating_income" then some ⟨0.01, 0.03, 0.05⟩
  else if metric = "operating_margin" then some ⟨0.003, 0.01, 0.02⟩
  else if metric = "ebitda" then some ⟨0.01, 0.03, 0.05⟩
  else if metric = "free_cash_flow" then some ⟨0.02, 0.05, 0.10⟩
  else if metric = "operating_cash_flow" then some ⟨0.01, 0.03, 0.05⟩
  else if metric = "cost_of_revenue" then some ⟨0.005, 0.02, 0.05⟩
  else if metric = "capital_expenditures" then some ⟨0.02, 0.05, 0.10⟩
  else if metric = "operating_expenses" then some ⟨0.01, 0.03, 0.05⟩
  else if metric = "research_and_development" then some ⟨0.01, 0.03, 0.05⟩
  else if metric = "other" then some ⟨0.02, 0.05, 0.10⟩
  else none

/-- `EPS_ABSOLUTE_TOLERANCE = 0.015`. -/
def EPS_ABSOLUTE_TOLERANCE : ℚ := 0.015

def GROWTH_RATE_TOLERANCE_PP : ℚ := 1.0
def GROWTH_RATE_LOOSE_PP : ℚ := 2.0

def APPROXIMATE_QUALIFIERS : List String :=
  ["approximately", "about", "roughly", "nearly", "around", "close to"]

/-- `is_approximate`. -/
def is_approximate (qualifiers : List String) : Bool :=
  qualifiers.any (fun q => APPROXIMATE_QUALIFIERS.contains (pyLower q))

structure TolBand where
  tight : ℚ
  loose : ℚ
deriving DecidableEq

/-- `get_tolerance` (falls back to the "other" band). -/
def get_tolerance (metric : String) (is_approx : Bool) : TolBand :=
  let tol := (TOLERANCES metric).getD ⟨0.02, 0.05, 0.10⟩
  if is_approx then ⟨tol.approx, tol.approx * 1.5⟩ else ⟨tol.tight, tol.loose⟩

/-- `get_growth_tolerance`. -/
def get_growth_tolerance (is_approx : Bool) : TolBand :=
  if is_approx then ⟨GROWTH_RATE_TOLERANCE_PP * 2, GROWTH_RATE_LOOSE_PP * 2⟩
  else ⟨GROWTH_RATE_TOLERANCE_PP, GROWTH_RATE_LOOSE_PP⟩

/-! ## metric_catalog.py -/

structure CatalogEntry where
  fmp_field : Option String
  fmp_fields : Option (String × String)
  computation : String
deriving DecidableEq

/-- `METRIC_CATALOG` / `get_catalog_entry` (the `statement`/`unit` columns of
the table are never read by the engine and are omitted). -/
def get_catalog_entry (metric : String) : Option CatalogEntry :=
  if metric = "revenue" then some ⟨some "revenue", none, "direct"⟩
  else if metric = "eps_basic" then some ⟨some "eps_basic", none, "direct"⟩
  else if metric = "eps_diluted" then some ⟨some "eps_diluted", none, "direct"⟩
  else if metric = "gross_profit" then some ⟨some "gross_profit", none, "direct"⟩
  else if metric = "gross_margin" then
    some ⟨none, some ("gross_profit", "revenue"), "ratio"⟩
  else if metric = "operating_income" then
    some ⟨some "operating_income", none, "direct"⟩
  else if metric = "operating_margin" then
    some ⟨none, some ("operating_income", "revenue"), "ratio"⟩
  else if metric = "net_income" then some ⟨some "net_income", none, "direct"⟩
  else if metric = "ebitda" then some ⟨some "ebitda", none, "direct"⟩
  else if metric = "free_cash_flow" then
    some ⟨some "free_cash_flow", none, "direct"⟩
  else if metric = "operating_cash_flow" then
    some ⟨some "operating_cash_flow", none, "direct"⟩
  else if metric = "cost_of_revenue" then
    some ⟨some "cost_of_revenue", none, "direct"⟩
  else if metric = "capital_expenditures" then
    some ⟨some "capital_expenditures", none, "direct"⟩
  else if metric = "operating_expenses" then
    some ⟨some "operating_expenses", none, "direct"⟩
  else if metric = "research_and_development" then
    some ⟨some "research_and_development", none, "direct"⟩
  else if metric = "cash_and_marketable_securities" then
    some ⟨some "cash_and_marketable_securities", none, "direct"⟩
  else if metric = "total_debt" then some ⟨some "total_debt", none, "direct"⟩
  else if metric = "net_cash" then some ⟨some "net_cash", none, "direct"⟩
  else none

/-! ## compute.py -/

/-- A Python float that is either a finite value or `float("inf")`. -/
inductive RF where
  | fin : ℚ → RF
  | inf : RF
deriving DecidableEq, Repr

/-- `r ≤ t` for a float-or-infinity against a finite threshold. -/
def RF.leq : RF → ℚ → Bool
  | .fin x, t => x ≤ t
  | .inf, _ => false

/-- `abs(r) < t` (used by the conflict-downgrade reducer). -/
def RF.absLt : RF → ℚ → Bool
  | .fin x, t => |x| < t
  | .inf, _ => false

/-- `compute_yoy_growth`. -/
def compute_yoy_growth (current prior : ℚ) : Option ℚ :=
  if prior = 0 then none else some ((current - prior) / |prior| * 100)

/-- `compute_qoq_growth`. -/
def compute_qoq_growth (current prior : ℚ) : Option ℚ :=
  if prior = 0 then none else some ((current - prior) / |prior| * 100)

/-- `compute_margin`. -/
def compute_margin (numerator denominator : ℚ) : Option ℚ :=
  if denominator = 0 then none else some (numerator / denominator * 100)

structure AbsComp where
  claimed : ℚ
  actual : ℚ
  difference : ℚ
  difference_pct : RF
deriving DecidableEq

/-- `verify_absolute`.  The engine passes the (possibly `None`) normalized
claimed value; `claimed - actual` raises on `None`. -/
def verify_absolute (claimedO : Option ℚ) (actual : ℚ) : Except Unit AbsComp :=
  match claimedO with
  | none => .error ()
  | some claimed =>
    let diff := claimed - actual
    let pct : RF :=
      if actual ≠ 0 then .fin (|diff / actual| * 100)
      else if claimed ≠ 0 then .inf else .fin 0
    .ok ⟨claimed, actual, diff, pct⟩

structure GrowthComp where
  claimed_pct : ℚ
  actual_pct : ℚ
  current_value : ℚ
  prior_value : ℚ
  difference_pp : ℚ
  abs_difference_pp : ℚ
deriving DecidableEq

/-- `verify_growth`: `none` models the `{"error": "zero_denominator"}` dict;
computing the growth precedes the use of the claimed percentage, so a zero
prior never raises even on a `None` claimed value. -/
def verify_growth (claimed_pctO : Option ℚ) (current prior : ℚ) :
    Except Unit (Option GrowthComp) :=
  match compute_yoy_growth current prior with
  | none => .ok none
  | some g =>
    match claimed_pctO with
    | none => .error ()
    | some c => .ok (some ⟨c, g, current, prior, c - g, |c - g|⟩)

structure MarginComp where
  claimed_margin : ℚ
  actual_margin : ℚ
  numerator : ℚ
  denominator : ℚ
  difference_pp : ℚ
  abs_difference_pp : ℚ
deriving DecidableEq

/-- `verify_margin` (same error convention as `verify_growth`). -/
def verify_margin (claimedO : Option ℚ) (numerator denominator : ℚ) :
    Except Unit (Option MarginComp) :=
  match compute_margin numerator denominator with
  | none => .ok none
  | some m =>
    match claimedO with
    | none => .error ()
    | some c => .ok (some ⟨c, m, numerator, denominator, c - m, |c - m|⟩)

/-! ## Claim records

A claim is the loosely-typed dict produced by extraction.  `Option` marks
fields the engine reads through `dict.get` with a default; `quote_text` and
`qualifiers` are modelled with their defaults already applied since the
engine only ever reads them with a default. -/

structure Claim where
  claim_id : Option String := none
  metric_type : Option String := none
  claim_type : Option String := none
  claimed_value : Option ℚ := none
  unit : Option String := none
  scale : Option String := none
  period : Option String := none
  comparison_period : Option String := none
  gaap_classification : Option String := none
  is_approximate : Bool := false
  qualifiers : List String := []
  metric_context : Option String := none
  quote_text : String := ""
deriving DecidableEq

/-! ## period_resolver.py -/

structure ResolvedPeriods where
  target : Int × Int
  baseline : Option (Int × Int) := none
  error : Option String := none
deriving DecidableEq, Repr

/-- `resolve_periods`. -/
def resolve_periods (claim : Claim) (transcript_year transcript_quarter : Int) :
    ResolvedPeriods :=
  let parsed := parse_period (claim.period.getD "")
  let target_year := (parsed.map Prod.fst).getD transcript_year
  let target_quarter := (parsed.map Prod.snd).getD transcript_quarter
  -- "Full year claims (quarter=0) are not verifiable in MVP"
  if target_quarter = 0 then
    { target := (target_year, 0), error := some "full_year" }
  else
    let claim_type := claim.claim_type.getD ""
    if claim_type = "yoy_growth" then
      -- explicit comparison period if truthy and parseable, else previous year
      let cp : Option (Int × Int) :=
        match claim.comparison_period with
        | some s => if s = "" then none else parse_period s
        | none => none
      match cp with
      | some b => { target := (target_year, target_quarter), baseline := some b }
      | none =>
        { target := (target_year, target_quarter),
          baseline := some (target_year - 1, target_quarter) }
    else if claim_type = "qoq_growth" then
      if target_quarter = 1 then
        { target := (target_year, target_quarter), baseline := some (target_year - 1, 4) }
      else
        { target := (target_year, target_quarter),
          baseline := some (target_year, target_quarter - 1) }
    else
      { target := (target_year, target_quarter) }

/-! ## Fact store and lookups (verdict_engine.py) -/

/-- The externally-built `fmp_data` dict: period-keyed metric maps, the
`_metric_sources` map and the `_calendar_aliases` map. -/
structure FactStore where
  periods : Int × Int → Option (String → Option ℚ)
  sources : Int × Int → String → Option String
  aliases : Int × Int → Option (Int × Int)

/-- `lookup_value`. -/
def lookup_value (fmp_data : FactStore) (metric : String) (year quarter : Int)
    (use_calendar_alias : Bool) : Option (ℚ × String) :=
  match fmp_data.periods (year, quarter) with
  | some m =>
    match m metric with
    | some v => some (v, (fmp_data.sources (year, quarter) metric).getD "fmp")
    | none => lookupAlias fmp_data metric year quarter use_calendar_alias
  | none => lookupAlias fmp_data metric year quarter use_calendar_alias
where
  lookupAlias (fmp_data : FactStore) (metric : String) (year quarter : Int)
      (use_calendar_alias : Bool) : Option (ℚ × String) :=
    if use_calendar_alias then
      match fmp_data.aliases (year, quarter) with
      | some fyq =>
        match fmp_data.periods fyq with
        | some m =>
          match m metric with
          | some v =>
            some (v, ((fmp_data.sources fyq metric).getD "fmp") ++ "_calendar_alias")
          | none => none
        | none => none
      | none => none
    else none

/-- `_previous_quarter`. -/
def previous_quarter (year quarter : Int) : Int × Int :=
  if quarter = 1 then (year - 1, 4) else (year, quarter - 1)

/-- One underlying financial fact, as recorded in `financial_facts_used`. -/
structure Fact where
  field : String
  fy : Int
  fq : Int
  value : ℚ
deriving DecidableEq, Repr

/-- `f"Q{quarter} {year}"`. -/
def periodLabel (year quarter : Int) : String :=
  "Q" ++ toString quarter ++ " " ++ toString year

structure SumResult where
  total : Option ℚ
  srcs : List String
  facts : List Fact
  missing : List String
deriving Inhabited

/-- Accumulating loop of `_sum_metric_for_periods`. -/
def sumGo (fmp_data : FactStore) (metric : String) (use_calendar_alias : Bool) :
    List (Int × Int) → ℚ → List String → List Fact → List String →
    ℚ × List String × List Fact × List String
  | [], total, srcs, facts, missing => (total, srcs, facts, missing)
  | (year, quarter) :: rest, total, srcs, facts, missing =>
    match lookup_value fmp_data metric year quarter use_calendar_alias with
    | none =>
      sumGo fmp_data metric use_calendar_alias rest total srcs facts
        (missing ++ [periodLabel year quarter])
    | some (v, src) =>
      sumGo fmp_data metric use_calendar_alias rest (total + v)
        (if srcs.contains src then srcs else srcs ++ [src])
        (facts ++ [⟨metric, year, quarter, v⟩]) missing

/-- `_sum_metric_for_periods`: a partial sum is never returned — any missing
period makes the total `None` and the missing labels are reported. -/
def sum_metric_for_periods (fmp_data : FactStore) (metric : String)
    (periods : List (Int × Int)) (use_calendar_alias : Bool) : SumResult :=
  match sumGo fmp_data metric use_calendar_alias periods 0 [] [] [] with
  | (total, srcs, facts, missing) =>
    if missing ≠ [] then ⟨none, srcs, facts, missing⟩
    else ⟨some total, srcs, facts, []⟩

/-- `_full_year_periods`. -/
def full_year_periods (year : Int) : List (Int × Int) :=
  [(year, 1), (year, 2), (year, 3), (year, 4)]

/-- `_ttm_periods`: the target quarter plus the three preceding quarters. -/
def ttm_periods (target_year target_quarter : Int) : List (Int × Int) :=
  let p1 := previous_quarter target_year target_quarter
  let p2 := previous_quarter p1.1 p1.2
  let p3 := previous_quarter p2.1 p2.2
  [(target_year, target_quarter), p1, p2, p3]

/-- `_determine_multiperiod_periods` (quote already lowercased). -/
def determine_multiperiod_periods (quote_lower : List Char)
    (target_year target_quarter : Int) : Option (List (Int × Int) × String) :=
  if containsSub quote_lower "trailing twelve".data ||
     containsSub quote_lower "trailing 12".data ||
     containsSub quote_lower "ttm".data ||
     containsSub quote_lower "last 12 months".data ||
     containsSub quote_lower "past year".data then
    some (ttm_periods target_year target_quarter, "TTM")
  else if containsSub quote_lower "first half".data then
    some ([(target_year, 1), (target_year, 2)], "first_half")
  else if containsSub quote_lower "first nine months".data then
    some ([(target_year, 1), (target_year, 2), (target_year, 3)], "first_nine_months")
  else if containsSub quote_lower "year-to-date".data ||
          boundedSearch [litT "ytd"] isWordChar quote_lower then
    if target_quarter = 1 ∨ target_quarter = 2 ∨ target_quarter = 3 ∨ target_quarter = 4 then
      some (((List.range target_quarter.toNat).map
               (fun q => (target_year, ((q : Int) + 1)))), "ytd")
    else none
  else none

/-- `_sum_full_year_metric`. -/
def sum_full_year_metric (fmp_data : FactStore) (metric : String) (year : Int)
    (use_calendar_alias : Bool) : SumResult :=
  sum_metric_for_periods fmp_data metric (full_year_periods year) use_calendar_alias

/-- First-occurrence deduplication (`list(dict.fromkeys(...))`). -/
def dedupGo : List String → List String → List String
  | [], acc => acc
  | x :: xs, acc => dedupGo xs (if acc.contains x then acc else acc ++ [x])

def dedupStr (l : List String) : List String := dedupGo l []

/-! ## Compiled keyword patterns of verdict_engine.py -/

/-- `_TTM_KEYWORDS`: `trailing\s+(twelve|12)[- ]month | ttm | last\s+12\s+months
| past\s+year | first\s+half | first\s+nine\s+months | year[- ]to[- ]date
| ytd | through\s+the\s+first\s+half` (unanchored search). -/
def ttmKeywordAlts : List (List Tok) :=
  [ litT "trailing" ++ [Tok.ws1] ++ litT "twelve" ++ [Tok.cls ['-', ' ']] ++ litT "month",
    litT "trailing" ++ [Tok.ws1] ++ litT "12" ++ [Tok.cls ['-', ' ']] ++ litT "month",
    litT "ttm",
    litT "last" ++ [Tok.ws1] ++ litT "12" ++ [Tok.ws1] ++ litT "months",
    litT "past" ++ [Tok.ws1] ++ litT "year",
    litT "first" ++ [Tok.ws1] ++ litT "half",
    litT "first" ++ [Tok.ws1] ++ litT "nine" ++ [Tok.ws1] ++ litT "months",
    litT "year" ++ [Tok.cls ['-', ' ']] ++ litT "to" ++ [Tok.cls ['-', ' ']] ++ litT "date",
    litT "ytd",
    litT "through" ++ [Tok.ws1] ++ litT "the" ++ [Tok.ws1] ++ litT "first" ++
      [Tok.ws1] ++ litT "half" ]

def ttmSearch (quote_lower : List Char) : Bool := reSearch ttmKeywordAlts quote_lower

/-- `_CAPEX_LEASE_KEYWORDS`: the third alternative `financ(e|ed)\s+lease` is
matched by any match of the first two (`including.*?...`, `plus.*?...`), so
an unanchored search reduces to it. -/
def capexLeaseAlts : List (List Tok) :=
  [ litT "finance" ++ [Tok.ws1] ++ litT "lease",
    litT "financed" ++ [Tok.ws1] ++ litT "lease" ]

def capexLeaseSearch (quote_lower : List Char) : Bool :=
  reSearch capexLeaseAlts quote_lower

/-- `_TOTAL_EXPENSES_KEYWORDS`:
`total\s+(costs?\s+and\s+)?expenses | costs?\s+and\s+expenses` with the
optional groups expanded. -/
def totalExpensesAlts : List (List Tok) :=
  [ litT "total" ++ [Tok.ws1] ++ litT "cost" ++ [Tok.ws1] ++ litT "and" ++
      [Tok.ws1] ++ litT "expenses",
    litT "total" ++ [Tok.ws1] ++ litT "costs" ++ [Tok.ws1] ++ litT "and" ++
      [Tok.ws1] ++ litT "expenses",
    litT "total" ++ [Tok.ws1] ++ litT "expenses",
    litT "cost" ++ [Tok.ws1] ++ litT "and" ++ [Tok.ws1] ++ litT "expenses",
    litT "costs" ++ [Tok.ws1] ++ litT "and" ++ [Tok.ws1] ++ litT "expenses" ]

def totalExpensesSearch (quote_lower : List Char) : Bool :=
  reSearch totalExpensesAlts quote_lower

/-- Direction words of `_BPS_CHANGE_KEYWORDS`, with the `(ed)?` /
`(e|ed|ing)` optional groups expanded. -/
def bpsChangeWords : List String :=
  [ "expand", "expanded", "contract", "contracted", "improv", "improved",
    "declin", "declined", "increas", "increased", "decreas", "decreased",
    "deleverage", "deleveraged", "deleveraging" ]

/-- `_BPS_CHANGE_KEYWORDS`: `<word>\s+\d+\s*basis\s*points?` (trailing `s?`
dropped: it cannot affect search success). -/
def bpsChange1Alts : List (List Tok) :=
  bpsChangeWords.map (fun w =>
    litT w ++ [Tok.ws1, Tok.digits1, Tok.ws0] ++ litT "basis" ++ [Tok.ws0] ++
      litT "point")

def bpsSearch1 (quote_lower : List Char) : Bool :=
  reSearch bpsChange1Alts quote_lower

/-- Cross product of alternative fragments. -/
def crossAlts (xs ys : List (List Tok)) : List (List Tok) :=
  xs.flatMap (fun x => ys.map (fun y => x ++ y))

/-- `_BPS_CHANGE_KEYWORDS2`:
`\d+\s*basis\s*points?\s*(of\s+)?(expansion|contraction|improvement|decline|deleverag(e|ed|ing))`
with the optional groups expanded. -/
def bpsChange2Alts : List (List Tok) :=
  crossAlts
    (crossAlts
      [[Tok.digits1, Tok.ws0] ++ litT "basis" ++ [Tok.ws0] ++ litT "points" ++ [Tok.ws0],
       [Tok.digits1, Tok.ws0] ++ litT "basis" ++ [Tok.ws0] ++ litT "point" ++ [Tok.ws0]]
      [litT "of" ++ [Tok.ws1], []])
    [ litT "expansion", litT "contraction", litT "improvement", litT "decline",
      litT "deleverage", litT "deleveraged", litT "deleveraging" ]

def bpsSearch2 (quote_lower : List Char) : Bool :=
  reSearch bpsChange2Alts quote_lower

/-- `SEGMENT_KEYWORDS`. -/
def SEGMENT_KEYWORDS : List String :=
  [ "iphone", "in mac", "mac,", "mac revenue", "ipad", "wearable",
    "services,", "services business", "from services", "to services",
    "products revenue", "apple intelligence",
    "cloud", "azure", "office", "linkedin", "gaming", "windows", "xbox",
    "intelligent cloud", "productivity and business", "more personal computing",
    "advertising", "youtube", "google search", "pixel", "google cloud",
    "aws", "north america", "third-party", "first-party",
    "international", "subscriptions", "device", "greater china",
    "europe", "japan", "rest of asia", "americas",
    "consumer banking", "investment banking", "asset management",
    "commercial banking",
    "pharmaceutical", "medtech", "innovative medicine",
    "sam's club", "walmart u.s.", "walmart international",
    "automotive", "energy generation", "energy storage",
    "data center", "professional visualization", "compute & networking",
    "reality labs", "family of apps" ]

/-- `any(p.search(quote_lower) for p in _SEGMENT_KEYWORD_PATTERNS)`: each
keyword pattern carries `(?<![a-z0-9]) ... (?![a-z0-9])` lookarounds. -/
def segmentKwSearch (quote_lower : List Char) : Bool :=
  SEGMENT_KEYWORDS.any (fun kw =>
    boundedSearch [kwToks kw] isLowerAlnumCI quote_lower)

/-- `_MONTH_QUARTER_KEYWORDS`. -/
def MONTH_QUARTER_KEYWORDS : List String :=
  [ "january quarter", "february quarter", "march quarter",
    "april quarter", "may quarter", "june quarter",
    "july quarter", "august quarter", "september quarter",
    "october quarter", "november quarter", "december quarter" ]

/-- `_ANNUAL_SUM_METRICS`. -/
def ANNUAL_SUM_METRICS : List String :=
  [ "revenue", "net_income", "gross_profit", "operating_income", "ebitda",
    "free_cash_flow", "operating_cash_flow", "cost_of_revenue",
    "capital_expenditures", "operating_expenses", "research_and_development" ]

def BPS_NEGATIVE_WORDS : List String :=
  ["down", "decline", "decrease", "decreased", "contraction", "contracted"]

def BPS_POSITIVE_WORDS : List String :=
  ["up", "increase", "increased", "expansion", "expanded", "improvement", "improved"]

def SEQUENTIAL_WORDS : List String :=
  ["sequential", "sequentially", "qoq", "quarter over quarter", "versus the prior quarter"]

def YOY_WORDS : List String :=
  ["year over year", "yoy", "versus last year", "from a year ago"]

/-- `any(w in quote_lower for w in ws)`. -/
def anyKw (quote_lower : List Char) (ws : List String) : Bool :=
  ws.any (fun w => containsSub quote_lower w.data)

/-! ## Claim-level helper predicates of verdict_engine.py -/

/-- `_is_segment_claim`. -/
def is_segment_claim (claim : Claim) : Bool :=
  let ctx := pyLower (String.mk (stripChars (claim.metric_context.getD "").data))
  if ctx ≠ "" &&
     !(["total", "company", "overall", "consolidated", ""].contains ctx) then
    true
  else
    segmentKwSearch (pyLower claim.quote_text).data

/-- `_should_use_calendar_alias`. -/
def should_use_calendar_alias (claim : Claim)
    (transcript_year transcript_quarter : Int) : Bool :=
  match parse_period (claim.period.getD "") with
  | none => false
  | some parsed =>
    if parsed = (transcript_year, transcript_quarter) then false
    else anyKw (pyLower claim.quote_text).data MONTH_QUARTER_KEYWORDS

/-- `_remap_other_metric`. -/
def remap_other_metric (metric : String) (quote_lower : List Char) : String :=
  if metric ≠ "other" then metric
  else if containsSub quote_lower "net cash".data then "net_cash"
  else if containsSub quote_lower "cash and marketable securities".data then
    "cash_and_marketable_securities"
  else if containsSub quote_lower "cash and investments".data then
    "cash_and_marketable_securities"
  else if containsSub quote_lower "cash and cash equivalents".data then
    "cash_and_marketable_securities"
  else if containsSub quote_lower "total debt".data ||
          containsSub quote_lower " in debt".data then "total_debt"
  else if containsSub quote_lower "free cash flow".data then "free_cash_flow"
  else if containsSub quote_lower "operating cash flow".data ||
          containsSub quote_lower "cash flow from operations".data then
    "operating_cash_flow"
  else if containsSub quote_lower "capital expenditures".data ||
          containsSub quote_lower "capital expenditure".data ||
          containsSub quote_lower "capex".data then "capital_expenditures"
  else if containsSub quote_lower "research and development".data ||
          containsSub quote_lower "r&d".data then "research_and_development"
  else metric

/-- `_signed_bps_value`. -/
def signed_bps_value (claimed_bps : ℚ) (quote_lower : List Char) : ℚ :=
  let base := |claimed_bps|
  if anyKw quote_lower BPS_NEGATIVE_WORDS then -base
  else if anyKw quote_lower BPS_POSITIVE_WORDS then base
  else claimed_bps

/-- `_resolve_margin_change_baseline`. -/
def resolve_margin_change_baseline (claim : Claim)
    (target_year target_quarter : Int) (quote_lower : List Char) :
    Option (Int × Int) :=
  let explicitBase : Option (Int × Int) :=
    match claim.comparison_period with
    | some s =>
      if s = "" then none
      else
        match parse_period s with
        | some p =>
          if p.2 = 1 ∨ p.2 = 2 ∨ p.2 = 3 ∨ p.2 = 4 then some p else none
        | none => none
    | none => none
  match explicitBase with
  | some p => some p
  | none =>
    if ¬(target_quarter = 1 ∨ target_quarter = 2 ∨ target_quarter = 3 ∨
         target_quarter = 4) then none
    else if anyKw quote_lower YOY_WORDS then
      some (target_year - 1, target_quarter)
    else if anyKw quote_lower SEQUENTIAL_WORDS then
      some (previous_quarter target_year target_quarter)
    else
      -- "Most bps commentary is sequential unless stated otherwise."
      some (previous_quarter target_year target_quarter)

/-! ## Verdict records

`Explanation` has one constructor per message template of the engine;
`seq` models Python's `+=` concatenation of explanation text. -/

inductive MisleadingReason where
  | cherryPickingTimeframe
  | gaapNongaapMixing
  | lowBaseExaggeration
deriving DecidableEq, Repr

set_option maxHeartbeats 1600000 in
inductive Explanation where
  | nonGaapClaim
  | guidanceClaim
  | capexIncludesLeases
  | dollarAmountGrowth
  | cannotVerify (err : String)
  | metricNotInCatalog (metric : String)
  | segmentClaim (ctx metric : String)
  | segmentGrowthClaim (ctx metric : String)
  | multiperiodUnsupportedMetric
  | multiperiodWindowUnknown
  | missingPeriods (labels : List String)
  | multiperiodVerified (label metric : String) (quarters : Nat)
  | fullYearNotSupported (metric : String)
  | fullYearVerified (year : Int) (metric : String)
  | noDataFound (metric ticker : String) (quarter year : Int)
  | balanceSheetDefinitionGap (metric : String)
  | bankNetVsGrossRevenue
  | revenueDefinitionMismatch
  | valueExceedsActual (metric : String)
  | capexAboveGap
  | capexBelowGap
  | fcfDefinitionGap
  | segmentClaimByValue (metric : String)
  | totalExpensesVerified
  | epsVerified
  | absoluteCompared (verdict source : String)
  | possibleNonGaap
  | fullYearGrowthNotSupported (metric : String)
  | fullYearGrowthNeedsFullYearBaseline
  | priorFullYearZero
  | fullYearGrowthCompared (targetYear baselineYear : Int)
  | cannotDetermineBaseline
  | priorPeriodZero
  | revenueGrowthDefinitionMismatch
  | growthCompared (targetYear targetQuarter baselineYear baselineQuarter : Int)
  | supplementalQoqReference (prevYear prevQuarter : Int)
  | cannotComputeMargin (metric : String)
  | marginChangeBaselineUnknown
  | missingNumDen (numField denField : String) (quarter year : Int)
  | denominatorZero
  | marginChangeCompared
  | fullYearMarginCompared
  | marginCompared
  | unsupportedClaimType (ct : String)
  | conflictingTranscriptClaim (refClaimId : Option String)
  | seq (a b : Explanation)
  | however (reasons : List MisleadingReason)
deriving DecidableEq, Repr

/-- The verdict dict returned by `verify_single_claim` (the string-formatted
`computation_detail`/`computation_steps` trace is not modelled). -/
structure VerdictRec where
  claim_id : String
  claimed_value : Option ℚ
  actual_value : Option ℚ := none
  difference : Option ℚ := none
  difference_pct : Option RF := none
  tolerance_used : Option ℚ := none
  evidence_source : Option String := none
  financial_facts_used : List Fact := []
  flags : List String := []
  misleading_flags : List String := []
  misleading_reasons : List MisleadingReason := []
  explanation : Option Explanation := none
  verdict : String := ""
deriving DecidableEq, Repr

/-! ## _definition_gap_check -/

/-- `_definition_gap_check`.  Dividing by `actual_value` happens only after
the `actual_value == 0` early return, and raises when the normalized value is
`None`. -/
def definition_gap_check (metric : String) (normalizedO : Option ℚ)
    (actual_value : ℚ) (quote_lower : List Char) :
    Except Unit (Option (String × Explanation)) :=
  if actual_value = 0 then .ok none
  else
    match normalizedO with
    | none => .error ()
    | some normalized =>
      let ratio := normalized / actual_value
      if (metric = "cash_and_marketable_securities" || metric = "total_debt" ||
          metric = "net_cash") &&
         |normalized - actual_value| / |actual_value| > 0.05 then
        .ok (some ("balance_sheet_definition_gap",
                   .balanceSheetDefinitionGap metric))
      else if metric = "revenue" && (0.50 < ratio && ratio < 0.80) &&
              (containsSub quote_lower "net revenue".data ||
               containsSub quote_lower "managed revenue".data ||
               containsSub quote_lower "net interest".data) then
        .ok (some ("bank_net_vs_gross_revenue", .bankNetVsGrossRevenue))
      else if metric = "revenue" && (0.50 < ratio && ratio < 0.80) then
        .ok (some ("revenue_definition_mismatch", .revenueDefinitionMismatch))
      else if ratio > 1.30 then
        .ok (some ("value_exceeds_actual", .valueExceedsActual metric))
      else if (metric = "capital_expenditures" || metric = "capital_expenditure") &&
              (1.05 < ratio && ratio < 1.50) then
        .ok (some ("capex_definition_gap", .capexAboveGap))
      else if (metric = "capital_expenditures" || metric = "capital_expenditure") &&
              (0.70 < ratio && ratio < 0.95) then
        .ok (some ("capex_definition_gap", .capexBelowGap))
      else if metric = "free_cash_flow" && (0.80 < ratio && ratio < 0.96) then
        .ok (some ("fcf_definition_gap", .fcfDefinitionGap))
      else .ok none

/-! ## _compute_full_year_margin -/

structure FullYearMargin where
  margin : Option ℚ
  srcs : List String
  facts : List Fact
  missing : List String
  num_sum : Option ℚ
  den_sum : Option ℚ

/-- `_compute_full_year_margin`. -/
def compute_full_year_margin (fmp_data : FactStore)
    (numerator_metric denominator_metric : String) (year : Int)
    (use_calendar_alias : Bool) : FullYearMargin :=
  let nr := sum_full_year_metric fmp_data numerator_metric year use_calendar_alias
  let dr := sum_full_year_metric fmp_data denominator_metric year use_calendar_alias
  let missing := dedupStr (nr.missing ++ dr.missing)
  let srcs := dedupStr (nr.srcs ++ dr.srcs)
  let facts := nr.facts ++ dr.facts
  match nr.total, dr.total with
  | some num_sum, some den_sum =>
    if den_sum ≠ 0 then
      ⟨some (num_sum / den_sum * 100), srcs, facts, [], some num_sum, some den_sum⟩
    else
      ⟨none, srcs, facts, missing, some num_sum, some den_sum⟩
  | num, den => ⟨none, srcs, facts, missing, num, den⟩

/-! ## misleading/heuristics.py -/

/-- `check_cherry_picking_timeframe`.  The heuristics read `claimed_value`
through `claim.get("claimed_value", 0)`; a claim that reaches the heuristics
always has a numeric claimed value (otherwise the engine raised earlier), so
the absent-key default is used for the `none` case. -/
def check_cherry_picking_timeframe (claim : Claim) (fmp_data : FactStore)
    (target_year target_quarter : Int) : List String × List MisleadingReason :=
  let claim_type := claim.claim_type.getD ""
  let claimed_value := claim.claimed_value.getD 0
  let metric := claim.metric_type.getD ""
  if claim_type ≠ "qoq_growth" || claimed_value ≤ 0 then ([], [])
  else
    match fmp_data.periods (target_year, target_quarter),
          fmp_data.periods (target_year - 1, target_quarter) with
    | some cur, some prior =>
      match cur metric, prior metric with
      | some current_val, some prior_yoy_val =>
        match compute_yoy_growth current_val prior_yoy_val with
        | some yoy_growth =>
          if yoy_growth < -5 then
            (["cherry_picking_timeframe"], [.cherryPickingTimeframe])
          else ([], [])
        | none => ([], [])
      | _, _ => ([], [])
    | _, _ => ([], [])

/-- `check_gaap_nongaap_mixing`. -/
def check_gaap_nongaap_mixing (claim : Claim) (fmp_data : FactStore)
    (target_year target_quarter : Int) : List String × List MisleadingReason :=
  let gaap := claim.gaap_classification.getD "unknown"
  let metric := claim.metric_type.getD ""
  let claim_type := claim.claim_type.getD ""
  let quote_lower := (pyLower claim.quote_text).data
  if gaap ≠ "unknown" || claim_type ≠ "absolute" then ([], [])
  else if !(metric = "eps_basic" || metric = "eps_diluted" || metric = "ebitda") then
    ([], [])
  else
    match claim.claimed_value with
    | none => ([], [])
    | some claimed_value =>
      match fmp_data.periods (target_year, target_quarter) with
      | none => ([], [])
      | some m =>
        match m metric with
        | none => ([], [])
        | some gaap_value =>
          if gaap_value = 0 then ([], [])
          else if (claimed_value - gaap_value) / |gaap_value| > 0.15 then
            if !(anyKw quote_lower
                  ["adjusted", "non-gaap", "non gaap", "excluding", "pro forma"]) then
              (["gaap_nongaap_mixing"], [.gaapNongaapMixing])
            else ([], [])
          else ([], [])

/-- `check_low_base_exaggeration`. -/
def check_low_base_exaggeration (claim : Claim) (fmp_data : FactStore)
    (target_year target_quarter : Int) : List String × List MisleadingReason :=
  let claim_type := claim.claim_type.getD ""
  let claimed_value := claim.claimed_value.getD 0
  let metric := claim.metric_type.getD ""
  if !(claim_type = "yoy_growth" || claim_type = "qoq_growth") then ([], [])
  else if |claimed_value| < 50 then ([], [])
  else
    let baseline_yq :=
      if claim_type = "yoy_growth" then (target_year - 1, target_quarter)
      else if target_quarter > 1 then (target_year, target_quarter - 1)
      else (target_year - 1, 4)
    match fmp_data.periods baseline_yq, fmp_data.periods (target_year, target_quarter) with
    | some base, some cur =>
      match base metric, cur "revenue" with
      | some baseline_value, some revenue =>
        if revenue = 0 then ([], [])
        else if |baseline_value| / |revenue| < 0.01 then
          (["low_base_exaggeration"], [.lowBaseExaggeration])
        else ([], [])
      | _, _ => ([], [])
    | _, _ => ([], [])

/-- `run_all_heuristics`. -/
def run_all_heuristics (claim : Claim) (fmp_data : FactStore)
    (target_year target_quarter : Int) : List String × List MisleadingReason :=
  let r1 := check_cherry_picking_timeframe claim fmp_data target_year target_quarter
  let r2 := check_gaap_nongaap_mixing claim fmp_data target_year target_quarter
  let r3 := check_low_base_exaggeration claim fmp_data target_year target_quarter
  (r1.1 ++ r2.1 ++ r3.1, r1.2 ++ r2.2 ++ r3.2)

/-- `_apply_misleading_checks`. -/
def apply_misleading_checks (result : VerdictRec) (claim : Claim)
    (fmp_data : FactStore) (target_year target_quarter : Int) : VerdictRec :=
  if result.verdict = "unverifiable" then result
  else
    let fr := run_all_heuristics claim fmp_data target_year target_quarter
    if fr.1 ≠ [] then
      let r := { result with misleading_flags := fr.1, misleading_reasons := fr.2 }
      if r.verdict = "verified" || r.verdict = "close_match" then
        { r with
          verdict := "misleading",
          explanation :=
            some (match r.explanation with
                  | some e => .seq e (.however fr.2)
                  | none => .however fr.2) }
      else r
    else result

/-! ## verify_single_claim

The engine is written in explicit early-return style: each Python `return`
becomes an `.ok`, and every arithmetic use of a possibly-`None` value becomes
a `withNum` (TypeError = `.error ()`). -/

/-- Raise `TypeError` on `None`, continue otherwise. -/
def withNum (o : Option ℚ) (k : ℚ → Except Unit α) : Except Unit α :=
  match o with
  | none => .error ()
  | some x => k x

/-- Chain an optional early return. -/
def orElseV (a : Except Unit (Option VerdictRec))
    (k : Unit → Except Unit VerdictRec) : Except Unit VerdictRec :=
  match a with
  | .error e => .error e
  | .ok (some v) => .ok v
  | .ok none => k ()

/-- `", ".join`. -/
def joinComma : List String → String
  | [] => ""
  | [x] => x
  | x :: xs => x ++ ", " ++ joinComma xs

/-- Python `(claim.get("metric_context") or dflt)`: `None` and `""` both fall
back to the default. -/
def ctxOr (claim : Claim) (dflt : String) : String :=
  match claim.metric_context with
  | some s => if s = "" then dflt else s
  | none => dflt

/-- Metrics treated as segment-prone for absolute and growth claims. -/
def SEGMENT_METRICS : List String :=
  [ "revenue", "cost_of_revenue", "gross_profit", "operating_income",
    "net_income", "operating_expenses", "research_and_development" ]

/-- `_value_check_metrics`. -/
def VALUE_CHECK_METRICS : List String :=
  [ "revenue", "cost_of_revenue", "gross_profit", "operating_income",
    "operating_expenses", "capital_expenditures", "net_income",
    "free_cash_flow", "operating_cash_flow" ]

/-- Generic percentage-difference banding (tight → verified, loose →
close_match, else mismatch) on a possibly-infinite fraction. -/
def bandOf (pct_diff : RF) (tol : TolBand) : String :=
  if pct_diff.leq tol.tight then "verified"
  else if pct_diff.leq tol.loose then "close_match"
  else "mismatch"

/-- The multi-period (TTM/YTD/first-half/first-nine-months) absolute path. -/
def absoluteMultiperiod (claim : Claim) (fmp_data : FactStore)
    (result0 : VerdictRec) (metric : String) (normalizedO : Option ℚ)
    (approx : Bool) (ql : List Char) (catalog : CatalogEntry)
    (transcript_quarter target_year target_quarter : Int) (uca : Bool) :
    Except Unit VerdictRec :=
  if !(ANNUAL_SUM_METRICS.contains metric) then
    .ok { result0 with
          verdict := "unverifiable",
          explanation := some .multiperiodUnsupportedMetric,
          flags := result0.flags ++ ["ttm_or_multiperiod"] }
  else
    let anchor_quarter :=
      if target_quarter = 1 ∨ target_quarter = 2 ∨ target_quarter = 3 ∨
         target_quarter = 4 then target_quarter
      else transcript_quarter
    match determine_multiperiod_periods ql target_year anchor_quarter with
    | none =>
      .ok { result0 with
            verdict := "unverifiable",
            explanation := some .multiperiodWindowUnknown,
            flags := result0.flags ++ ["ttm_or_multiperiod"] }
    | some (periods_to_sum, label) =>
      let fmp_field := catalog.fmp_field.getD metric
      let sr := sum_metric_for_periods fmp_data fmp_field periods_to_sum uca
      match sr.total with
      | none =>
        .ok { result0 with
              verdict := "unverifiable",
              explanation := some (.missingPeriods sr.missing),
              flags := result0.flags ++ ["ttm_or_multiperiod"] }
      | some actual_sum =>
        let r1 := { result0 with
                    actual_value := some actual_sum,
                    evidence_source :=
                      some (if sr.srcs ≠ [] then joinComma sr.srcs else "fmp"),
                    financial_facts_used :=
                      result0.financial_facts_used ++ sr.facts }
        match definition_gap_check metric normalizedO actual_sum ql with
        | .error e => .error e
        | .ok (some fe) =>
          .ok { r1 with
                verdict := "unverifiable",
                explanation := some fe.2,
                flags := r1.flags ++ [fe.1] }
        | .ok none =>
          match verify_absolute normalizedO actual_sum with
          | .error e => .error e
          | .ok comp =>
            let tol := get_tolerance metric approx
            let pct_diff : RF :=
              if actual_sum ≠ 0 then .fin (|comp.difference| / |actual_sum|)
              else .inf
            let v := bandOf pct_diff tol
            .ok (apply_misleading_checks
              { r1 with
                verdict := v,
                difference := some comp.difference,
                difference_pct := some comp.difference_pct,
                tolerance_used := some tol.tight,
                explanation :=
                  some (.multiperiodVerified label metric periods_to_sum.length) }
              claim fmp_data target_year target_quarter)

/-- The full-year (quarter 0) absolute path.  (Unreachable in the current
program: `resolve_periods` raises the `full_year` error first; modelled as
written.) -/
def absoluteFullYear (claim : Claim) (fmp_data : FactStore)
    (result0 : VerdictRec) (metric : String) (normalizedO : Option ℚ)
    (approx : Bool) (ql : List Char) (catalog : CatalogEntry)
    (target_year target_quarter : Int) (uca : Bool) : Except Unit VerdictRec :=
  if !(ANNUAL_SUM_METRICS.contains metric) then
    .ok { result0 with
          verdict := "unverifiable",
          explanation := some (.fullYearNotSupported metric) }
  else
    let fmp_field := catalog.fmp_field.getD metric
    let sr := sum_full_year_metric fmp_data fmp_field target_year uca
    match sr.total with
    | none =>
      .ok { result0 with
            verdict := "unverifiable",
            explanation := some (.missingPeriods sr.missing) }
    | some annual_total =>
      let r1 := { result0 with
                  actual_value := some annual_total,
                  evidence_source :=
                    some (if sr.srcs ≠ [] then joinComma sr.srcs else "fmp"),
                  financial_facts_used :=
                    result0.financial_facts_used ++ sr.facts }
      match definition_gap_check metric normalizedO annual_total ql with
      | .error e => .error e
      | .ok (some fe) =>
        .ok { r1 with
              verdict := "unverifiable",
              explanation := some fe.2,
              flags := r1.flags ++ [fe.1] }
      | .ok none =>
        match verify_absolute normalizedO annual_total with
        | .error e => .error e
        | .ok comp =>
          let tol := get_tolerance metric approx
          let pct_diff : RF :=
            if annual_total ≠ 0 then .fin (|comp.difference| / |annual_total|)
            else .inf
          let v := bandOf pct_diff tol
          .ok (apply_misleading_checks
            { r1 with
              verdict := v,
              difference := some comp.difference,
              difference_pct := some comp.difference_pct,
              tolerance_used := some tol.tight,
              explanation := some (.fullYearVerified target_year metric) }
            claim fmp_data target_year target_quarter)

/-- The "total expenses = COGS + OpEx" reinterpretation: returns an early
verdict when it applies, `none` to continue with the plain absolute path. -/
def totalExpensesCheck (claim : Claim) (fmp_data : FactStore)
    (result0 : VerdictRec) (metric : String) (normalizedO : Option ℚ)
    (approx : Bool) (ql : List Char) (target_year target_quarter : Int)
    (uca : Bool) : Except Unit (Option VerdictRec) :=
  if metric = "operating_expenses" then
    let cogs := lookup_value fmp_data "cost_of_revenue" target_year target_quarter uca
    let opex := lookup_value fmp_data "operating_expenses" target_year target_quarter uca
    let is_kw := totalExpensesSearch ql
    match cogs, opex with
    | some c, some o =>
      let total_exp := c.1 + o.1
      let byValueE : Except Unit Bool :=
        if total_exp > 0 then
          withNum normalizedO fun n =>
            .ok (decide (n > o.1 * 1.2 ∧ 0.90 < n / total_exp ∧ n / total_exp < 1.10))
        else .ok false
      match byValueE with
      | .error e => .error e
      | .ok byValue =>
        if is_kw || byValue then
          match verify_absolute normalizedO total_exp with
          | .error e => .error e
          | .ok comp =>
            let tol := get_tolerance metric approx
            let pct_diff : RF :=
              if total_exp ≠ 0 then .fin (|comp.difference| / |total_exp|)
              else .inf
            let v := bandOf pct_diff tol
            .ok (some (apply_misleading_checks
              { result0 with
                actual_value := some total_exp,
                evidence_source := some "fmp (cost_of_revenue + operating_expenses)",
                financial_facts_used := result0.financial_facts_used ++
                  [⟨"cost_of_revenue", target_year, target_quarter, c.1⟩,
                   ⟨"operating_expenses", target_year, target_quarter, o.1⟩],
                verdict := v,
                difference := some comp.difference,
                difference_pct := some comp.difference_pct,
                tolerance_used := some tol.tight,
                explanation := some .totalExpensesVerified }
              claim fmp_data target_year target_quarter))
        else .ok none
    | _, _ =>
      -- keyword hit without both figures present falls through to the
      -- plain lookup path
      .ok none
  else .ok none

/-- The plain (single-quarter) absolute comparison path, after the
total-expenses reinterpretation declined. -/
def absolutePlain (claim : Claim) (ticker : String) (fmp_data : FactStore)
    (result0 : VerdictRec) (metric : String) (normalizedO : Option ℚ)
    (approx : Bool) (gaap : String) (ql : List Char) (catalog : CatalogEntry)
    (target_year target_quarter : Int) (uca : Bool) : Except Unit VerdictRec :=
  let fmp_field := catalog.fmp_field.getD metric
  match lookup_value fmp_data fmp_field target_year target_quarter uca with
  | none =>
    .ok { result0 with
          verdict := "unverifiable",
          explanation :=
            some (.noDataFound metric ticker target_quarter target_year) }
  | some (actual_value, source) =>
    match definition_gap_check metric normalizedO actual_value ql with
    | .error e => .error e
    | .ok (some fe) =>
      .ok { result0 with
            verdict := "unverifiable",
            explanation := some fe.2,
            flags := result0.flags ++ [fe.1],
            actual_value := some actual_value,
            evidence_source := some source,
            financial_facts_used := result0.financial_facts_used ++
              [⟨metric, target_year, target_quarter, actual_value⟩] }
    | .ok none =>
      -- bank "net revenue" vs gross revenue
      orElseV
        (if metric = "revenue" ∧ actual_value > 0 then
          withNum normalizedO fun n =>
            if (0.50 < n / actual_value ∧ n / actual_value < 0.80) ∧
               anyKw ql ["net revenue", "managed revenue", "net interest"] then
              .ok (some { result0 with
                          verdict := "unverifiable",
                          explanation := some .bankNetVsGrossRevenue,
                          flags := result0.flags ++ ["bank_net_vs_gross_revenue"] })
            else .ok none
        else .ok none) fun _ =>
      -- claimed < 50% of actual: segment by value
      orElseV
        (if VALUE_CHECK_METRICS.contains metric ∧ actual_value > 0 then
          withNum normalizedO fun n =>
            if n < actual_value * 0.50 then
              .ok (some { result0 with
                          verdict := "unverifiable",
                          explanation := some (.segmentClaimByValue metric),
                          flags := result0.flags ++ ["segment_claim_by_value"] })
            else .ok none
        else .ok none) fun _ =>
      -- revenue claimed 50–80% of actual: definition mismatch
      orElseV
        (if metric = "revenue" ∧ actual_value > 0 then
          withNum normalizedO fun n =>
            if 0.50 < n / actual_value ∧ n / actual_value < 0.80 then
              .ok (some { result0 with
                          verdict := "unverifiable",
                          explanation := some .revenueDefinitionMismatch,
                          flags := result0.flags ++ ["revenue_definition_mismatch"] })
            else .ok none
        else .ok none) fun _ =>
      -- claimed > 1.3x actual
      orElseV
        (if actual_value > 0 then
          withNum normalizedO fun n =>
            if n > actual_value * 1.30 then
              .ok (some { result0 with
                          verdict := "unverifiable",
                          explanation := some (.valueExceedsActual metric),
                          flags := result0.flags ++ ["value_exceeds_actual"] })
            else .ok none
        else .ok none) fun _ =>
      -- CapEx 5–50% above actual
      orElseV
        (if (metric = "capital_expenditures" ∨ metric = "capital_expenditure") ∧
            actual_value > 0 then
          withNum normalizedO fun n =>
            if 1.05 < n / actual_value ∧ n / actual_value < 1.50 then
              .ok (some { result0 with
                          verdict := "unverifiable",
                          explanation := some .capexAboveGap,
                          flags := result0.flags ++ ["capex_definition_gap"] })
            else .ok none
        else .ok none) fun _ =>
      -- FCF 4–20% below actual
      orElseV
        (if metric = "free_cash_flow" ∧ actual_value > 0 then
          withNum normalizedO fun n =>
            if 0.80 < n / actual_value ∧ n / actual_value < 0.96 then
              .ok (some { result0 with
                          verdict := "unverifiable",
                          explanation := some .fcfDefinitionGap,
                          flags := result0.flags ++ ["fcf_definition_gap"] })
            else .ok none
        else .ok none) fun _ =>
      let r1 : VerdictRec :=
                { result0 with
                  actual_value := some actual_value,
                  evidence_source := some source,
                  financial_facts_used := result0.financial_facts_used ++
                    [(⟨metric, target_year, target_quarter, actual_value⟩ : Fact)] }
      -- EPS fixed absolute tolerance first
      orElseV
        (if metric = "eps_basic" ∨ metric = "eps_diluted" then
          withNum normalizedO fun n =>
            let abs_diff := |n - actual_value|
            if abs_diff ≤ EPS_ABSOLUTE_TOLERANCE then
              .ok (some (apply_misleading_checks
                { r1 with
                  verdict := "verified",
                  difference := some (n - actual_value),
                  difference_pct :=
                    some (.fin (if actual_value ≠ 0 then
                                  abs_diff / |actual_value| * 100 else 0)),
                  tolerance_used := some EPS_ABSOLUTE_TOLERANCE,
                  explanation := some .epsVerified }
                claim fmp_data target_year target_quarter))
            else .ok none
        else .ok none) fun _ =>
      -- general absolute comparison
      match verify_absolute normalizedO actual_value with
      | .error e => .error e
      | .ok comp =>
        let tol := get_tolerance metric approx
        let pct_diff : RF :=
          if actual_value ≠ 0 then .fin (|comp.difference| / |actual_value|)
          else .inf
        let v := bandOf pct_diff tol
        let r2 := { r1 with
                    verdict := v,
                    difference := some comp.difference,
                    difference_pct := some comp.difference_pct,
                    tolerance_used := some tol.tight,
                    explanation := some (.absoluteCompared v source) }
        let r3 :=
          if gaap = "unknown" ∧ r2.verdict = "mismatch" ∧
             comp.claimed > actual_value ∧
             ["net_income", "eps_basic", "eps_diluted", "operating_income",
              "ebitda"].contains metric then
            { r2 with
              flags := r2.flags ++ ["possible_non_gaap_without_disclosure"],
              verdict := "misleading",
              explanation := some .possibleNonGaap }
          else r2
        .ok (apply_misleading_checks r3 claim fmp_data target_year target_quarter)

/-- The growth (`yoy_growth`/`qoq_growth`) branch. -/
def growthBranch (claim : Claim) (fmp_data : FactStore) (result0 : VerdictRec)
    (metric : String) (claimed_value : Option ℚ) (approx : Bool)
    (catalog : CatalogEntry)
    (target_year target_quarter : Int) (baselineO : Option (Int × Int))
    (uca : Bool) (claim_type : String) : Except Unit VerdictRec :=
  if SEGMENT_METRICS.contains metric && is_segment_claim claim then
    .ok { result0 with
          verdict := "unverifiable",
          explanation :=
            some (.segmentGrowthClaim
              (String.mk (stripChars (ctxOr claim "segment").data)) metric),
          flags := result0.flags ++ ["segment_claim"] }
  else if target_quarter = 0 then
    -- Full-year YoY growth (unreachable: resolve_periods errors first)
    if !(ANNUAL_SUM_METRICS.contains metric) then
      .ok { result0 with
            verdict := "unverifiable",
            explanation := some (.fullYearGrowthNotSupported metric) }
    else
      let baseline := baselineO.getD (target_year - 1, 0)
      if baseline.2 ≠ 0 then
        .ok { result0 with
              verdict := "unverifiable",
              explanation := some .fullYearGrowthNeedsFullYearBaseline }
      else
        let fmp_field := catalog.fmp_field.getD metric
        let cr := sum_full_year_metric fmp_data fmp_field target_year uca
        let pr := sum_full_year_metric fmp_data fmp_field baseline.1 uca
        match cr.total, pr.total with
        | some current_sum, some prior_sum =>
          let r1 := { result0 with
                      actual_value := some current_sum,
                      evidence_source :=
                        some (let ss := dedupStr (cr.srcs ++ pr.srcs)
                              if ss ≠ [] then joinComma ss else "fmp"),
                      financial_facts_used :=
                        result0.financial_facts_used ++ cr.facts ++ pr.facts }
          match verify_growth claimed_value current_sum prior_sum with
          | .error e => .error e
          | .ok none =>
            .ok { r1 with
                  verdict := "unverifiable",
                  explanation := some .priorFullYearZero }
          | .ok (some comp) =>
            let tol := get_growth_tolerance approx
            let v := bandOf (.fin comp.abs_difference_pp) tol
            .ok (apply_misleading_checks
              { r1 with
                verdict := v,
                difference := some comp.difference_pp,
                difference_pct := some (.fin comp.abs_difference_pp),
                tolerance_used := some tol.tight,
                explanation :=
                  some (.fullYearGrowthCompared target_year baseline.1) }
              claim fmp_data target_year target_quarter)
        | _, _ =>
          .ok { result0 with
                verdict := "unverifiable",
                explanation :=
                  some (.missingPeriods (dedupStr (cr.missing ++ pr.missing))) }
  else
    match baselineO with
    | none =>
      .ok { result0 with
            verdict := "unverifiable",
            explanation := some .cannotDetermineBaseline }
    | some (baseline_year, baseline_quarter) =>
      let fmp_field := catalog.fmp_field.getD metric
      let actual_current :=
        lookup_value fmp_data fmp_field target_year target_quarter uca
      let actual_prior :=
        lookup_value fmp_data fmp_field baseline_year baseline_quarter uca
      match actual_current, actual_prior with
      | some (current_val, src1), some (prior_val, src2) =>
        let r1 : VerdictRec :=
          { result0 with
            actual_value := some current_val,
            evidence_source := some (src1 ++ " (current), " ++ src2 ++ " (prior)"),
            financial_facts_used := result0.financial_facts_used ++
              [(⟨metric, target_year, target_quarter, current_val⟩ : Fact),
               (⟨metric, baseline_year, baseline_quarter, prior_val⟩ : Fact)] }
        match verify_growth claimed_value current_val prior_val with
        | .error e => .error e
        | .ok none =>
          .ok { r1 with
                verdict := "unverifiable",
                explanation := some .priorPeriodZero }
        | .ok (some comp) =>
          if metric = "revenue" ∧ |comp.difference_pp| > 3.0 ∧
             ¬ (r1.flags.contains "revenue_definition_mismatch") then
            .ok { r1 with
                  verdict := "unverifiable",
                  explanation := some .revenueGrowthDefinitionMismatch,
                  flags := r1.flags ++ ["revenue_growth_definition_mismatch"] }
          else
            let tol := get_growth_tolerance approx
            let v := bandOf (.fin comp.abs_difference_pp) tol
            let baseExpl : Explanation :=
              .growthCompared target_year target_quarter baseline_year baseline_quarter
            let expl : Explanation :=
              if claim_type = "yoy_growth" then
                let pq := previous_quarter target_year target_quarter
                match lookup_value fmp_data fmp_field pq.1 pq.2 uca with
                | some (prev_q_val, _) =>
                  match compute_qoq_growth current_val prev_q_val with
                  | some _ => .seq baseExpl (.supplementalQoqReference pq.1 pq.2)
                  | none => baseExpl
                | none => baseExpl
              else baseExpl
            .ok (apply_misleading_checks
              { r1 with
                verdict := v,
                difference := some comp.difference_pp,
                difference_pct := some (.fin comp.abs_difference_pp),
                tolerance_used := some tol.tight,
                explanation := some expl }
              claim fmp_data target_year target_quarter)
      | cur, pri =>
        let missing :=
          (if cur = none then [periodLabel target_year target_quarter] else []) ++
          (if pri = none then [periodLabel baseline_year baseline_quarter] else [])
        .ok { result0 with
              verdict := "unverifiable",
              explanation := some (.missingPeriods missing) }

/-- The margin branch. -/
def marginBranch (claim : Claim) (fmp_data : FactStore) (result0 : VerdictRec)
    (metric : String) (claimed_value : Option ℚ) (approx : Bool)
    (ql : List Char) (catalog : CatalogEntry)
    (target_year target_quarter : Int) (uca : Bool)
    (is_bps_margin_change : Bool) : Except Unit VerdictRec :=
  if is_segment_claim claim then
    .ok { result0 with
          verdict := "unverifiable",
          explanation :=
            some (.segmentClaim
              (String.mk (stripChars (ctxOr claim "segment").data)) metric),
          flags := result0.flags ++ ["segment_claim"] }
  else
    let fieldsE : Except Unit (String × String × String) :=
      if metric = "operating_expenses" then
        .ok (if containsSub ql "sg&a".data then "sga_expenses"
             else "operating_expenses", "revenue", "operating_margin")
      else if catalog.computation ≠ "ratio" then
        .error ()  -- placeholder, handled below
      else
        match catalog.fmp_fields with
        | some (nf, df) => .ok (nf, df, metric)
        | none => .error ()  -- KeyError (no ratio entry lacks its fields)
    if metric ≠ "operating_expenses" ∧ catalog.computation ≠ "ratio" then
      .ok { result0 with
            verdict := "unverifiable",
            explanation := some (.cannotComputeMargin metric) }
    else
      match fieldsE with
      | .error e => .error e
      | .ok (num_field, den_field, tolerance_metric) =>
        let lookupNum : Int → Int → Option (ℚ × String) := fun y q =>
          match lookup_value fmp_data num_field y q uca with
          | some v => some v
          | none =>
            if num_field = "sga_expenses" then
              lookup_value fmp_data "operating_expenses" y q uca
            else none
        if is_bps_margin_change then
          match resolve_margin_change_baseline claim target_year target_quarter ql with
          | none =>
            .ok { result0 with
                  verdict := "unverifiable",
                  explanation := some .marginChangeBaselineUnknown,
                  flags := result0.flags ++ ["margin_change_bps"] }
          | some (baseline_year, baseline_quarter) =>
            let num_current := lookupNum target_year target_quarter
            let den_current :=
              lookup_value fmp_data den_field target_year target_quarter uca
            let num_prior := lookupNum baseline_year baseline_quarter
            let den_prior :=
              lookup_value fmp_data den_field baseline_year baseline_quarter uca
            match num_current, den_current, num_prior, den_prior with
            | some (cur_num, s1), some (cur_den, s2),
              some (prev_num, s3), some (prev_den, s4) =>
              if cur_den = 0 ∨ prev_den = 0 then
                .ok { result0 with
                      verdict := "unverifiable",
                      explanation := some .denominatorZero,
                      flags := result0.flags ++ ["margin_change_bps"] }
              else
                let current_margin := cur_num / cur_den * 100
                let prior_margin := prev_num / prev_den * 100
                let actual_change_bps := (current_margin - prior_margin) * 100
                withNum claimed_value fun cv =>
                  let claimed_change_bps := signed_bps_value cv ql
                  let diff_bps := claimed_change_bps - actual_change_bps
                  let abs_diff_bps := |diff_bps|
                  let tight_bps : ℚ := if !approx then 25.0 else 50.0
                  let loose_bps : ℚ := if !approx then 75.0 else 100.0
                  let v :=
                    if abs_diff_bps ≤ tight_bps then "verified"
                    else if abs_diff_bps ≤ loose_bps then "close_match"
                    else "mismatch"
                  .ok (apply_misleading_checks
                    { result0 with
                      verdict := v,
                      actual_value := some actual_change_bps,
                      difference := some diff_bps,
                      difference_pct := some (.fin abs_diff_bps),
                      tolerance_used := some tight_bps,
                      evidence_source := some (joinComma (dedupStr [s1, s2, s3, s4])),
                      financial_facts_used := result0.financial_facts_used ++
                        [(⟨num_field, target_year, target_quarter, cur_num⟩ : Fact),
                         (⟨den_field, target_year, target_quarter, cur_den⟩ : Fact),
                         (⟨num_field, baseline_year, baseline_quarter, prev_num⟩ : Fact),
                         (⟨den_field, baseline_year, baseline_quarter, prev_den⟩ : Fact)],
                      explanation := some .marginChangeCompared }
                    claim fmp_data target_year target_quarter)
            | nc, dc, np, dp =>
              let missing :=
                (if nc = none ∨ dc = none then
                   [periodLabel target_year target_quarter] else []) ++
                (if np = none ∨ dp = none then
                   [periodLabel baseline_year baseline_quarter] else [])
              .ok { result0 with
                    verdict := "unverifiable",
                    explanation := some (.missingPeriods missing),
                    flags := result0.flags ++ ["margin_change_bps"] }
        else if target_quarter = 0 then
          -- Full-year margin (unreachable: resolve_periods errors first)
          let fy0 := compute_full_year_margin fmp_data num_field den_field
                       target_year uca
          let fy :=
            if fy0.margin = none ∧ num_field = "sga_expenses" then
              compute_full_year_margin fmp_data "operating_expenses" den_field
                target_year uca
            else fy0
          match fy.margin with
          | none =>
            if fy.missing ≠ [] then
              .ok { result0 with
                    verdict := "unverifiable",
                    explanation := some (.missingPeriods fy.missing) }
            else
              .ok { result0 with
                    verdict := "unverifiable",
                    explanation := some .denominatorZero }
          | some margin_actual =>
            let tol := get_tolerance tolerance_metric approx
            let threshold_pp := tol.tight * 100
            let loose_pp := tol.loose * 100
            withNum claimed_value fun cv =>
              let diff_pp := cv - margin_actual
              let abs_diff_pp := |diff_pp|
              let v :=
                if abs_diff_pp ≤ threshold_pp then "verified"
                else if abs_diff_pp ≤ loose_pp then "close_match"
                else "mismatch"
              .ok (apply_misleading_checks
                { result0 with
                  verdict := v,
                  actual_value := some margin_actual,
                  difference := some diff_pp,
                  difference_pct := some (.fin abs_diff_pp),
                  tolerance_used := some threshold_pp,
                  evidence_source :=
                    some (if fy.srcs ≠ [] then joinComma fy.srcs else "fmp"),
                  financial_facts_used := result0.financial_facts_used ++ fy.facts,
                  explanation := some .fullYearMarginCompared }
                claim fmp_data target_year target_quarter)
        else
          match lookupNum target_year target_quarter,
                lookup_value fmp_data den_field target_year target_quarter uca with
          | some (num_val, num_src), some (den_val, den_src) =>
            let r1 : VerdictRec :=
              { result0 with
                evidence_source :=
                  some (num_src ++ " (" ++ num_field ++ "), " ++
                        den_src ++ " (" ++ den_field ++ ")"),
                financial_facts_used := result0.financial_facts_used ++
                  [(⟨num_field, target_year, target_quarter, num_val⟩ : Fact),
                   (⟨den_field, target_year, target_quarter, den_val⟩ : Fact)] }
            match verify_margin claimed_value num_val den_val with
            | .error e => .error e
            | .ok none =>
              .ok { r1 with
                    verdict := "unverifiable",
                    explanation := some .denominatorZero }
            | .ok (some comp) =>
              let tol := get_tolerance tolerance_metric approx
              let threshold_pp := tol.tight * 100
              let loose_pp := tol.loose * 100
              let v :=
                if comp.abs_difference_pp ≤ threshold_pp then "verified"
                else if comp.abs_difference_pp ≤ loose_pp then "close_match"
                else "mismatch"
              .ok (apply_misleading_checks
                { r1 with
                  verdict := v,
                  actual_value := some comp.actual_margin,
                  difference := some comp.difference_pp,
                  difference_pct := some (.fin comp.abs_difference_pp),
                  tolerance_used := some threshold_pp,
                  explanation := some .marginCompared }
                claim fmp_data target_year target_quarter)
          | _, _ =>
            .ok { result0 with
                  verdict := "unverifiable",
                  explanation :=
                    some (.missingNumDen num_field den_field
                            target_quarter target_year) }

/-- `verify_single_claim`. -/
def verify_single_claim (claim : Claim) (ticker : String)
    (transcript_year transcript_quarter : Int) (fmp_data : FactStore) :
    Except Unit VerdictRec :=
  let metric0 := claim.metric_type.getD "other"
  let claim_type := claim.claim_type.getD ""
  let claimed_value := claim.claimed_value
  let unit := claim.unit.getD "dollars"
  let quote_lower := pyLower claim.quote_text
  let ql := quote_lower.data
  let metric1 := remap_other_metric metric0 ql
  let metric :=
    if metric1 = "free_cash_flow" &&
       containsSub ql "operating cash flow".data then "operating_cash_flow"
    else metric1
  let scale := claim.scale
  let gaap := claim.gaap_classification.getD "unknown"
  let approx := claim.is_approximate || is_approximate claim.qualifiers
  let result0 : VerdictRec :=
    { claim_id := claim.claim_id.getD "", claimed_value := claimed_value }
  if gaap = "non_gaap" then
    .ok { result0 with
          flags := ["non_gaap_claim"],
          verdict := "unverifiable",
          explanation := some .nonGaapClaim }
  else if claim_type = "guidance" then
    .ok { result0 with
          verdict := "unverifiable",
          explanation := some .guidanceClaim,
          flags := ["guidance_claim"] }
  else
    let is_multiperiod_claim := ttmSearch ql
    if (metric = "capital_expenditures" ∨ metric = "capital_expenditure") ∧
       capexLeaseSearch ql then
      .ok { result0 with
            verdict := "unverifiable",
            explanation := some .capexIncludesLeases,
            flags := ["capex_includes_leases"] }
    else
      let is_bps_margin_change :=
        claim_type = "margin" && (bpsSearch1 ql || bpsSearch2 ql)
      if (claim_type = "yoy_growth" ∨ claim_type = "qoq_growth") ∧
         unit = "dollars" then
        .ok { result0 with
              verdict := "unverifiable",
              explanation := some .dollarAmountGrowth,
              flags := ["dollar_amount_growth"] }
      else
        let periods := resolve_periods claim transcript_year transcript_quarter
        match periods.error with
        | some err =>
          .ok { result0 with
                verdict := "unverifiable",
                explanation := some (.cannotVerify err) }
        | none =>
          let target_year := periods.target.1
          let target_quarter := periods.target.2
          let uca := should_use_calendar_alias claim transcript_year transcript_quarter
          match get_catalog_entry metric with
          | none =>
            .ok { result0 with
                  verdict := "unverifiable",
                  explanation := some (.metricNotInCatalog metric) }
          | some catalog =>
            if claim_type = "absolute" then
              match normalize_claimed_value claimed_value unit scale with
              | .error e => .error e
              | .ok normalizedO =>
                if SEGMENT_METRICS.contains metric && is_segment_claim claim then
                  .ok { result0 with
                        verdict := "unverifiable",
                        explanation :=
                          some (.segmentClaim
                            (String.mk (stripChars (ctxOr claim "segment").data))
                            metric),
                        flags := ["segment_claim"] }
                else if is_multiperiod_claim then
                  absoluteMultiperiod claim fmp_data result0 metric normalizedO
                    approx ql catalog transcript_quarter target_year
                    target_quarter uca
                else if target_quarter = 0 then
                  absoluteFullYear claim fmp_data result0 metric normalizedO
                    approx ql catalog target_year target_quarter uca
                else
                  orElseV
                    (totalExpensesCheck claim fmp_data result0 metric normalizedO
                      approx ql target_year target_quarter uca) fun _ =>
                  absolutePlain claim ticker fmp_data result0 metric normalizedO
                    approx gaap ql catalog target_year target_quarter uca
            else if claim_type = "yoy_growth" ∨ claim_type = "qoq_growth" then
              growthBranch claim fmp_data result0 metric claimed_value approx
                catalog target_year target_quarter periods.baseline uca
                claim_type
            else if claim_type = "margin" then
              marginBranch claim fmp_data result0 metric claimed_value approx
                ql catalog target_year target_quarter uca is_bps_margin_change
            else
              .ok { result0 with
                    verdict := "unverifiable",
                    explanation := some (.unsupportedClaimType claim_type),
                    flags := ["unsupported_claim_type_" ++ claim_type] }

/-! ## pipeline.py: _downgrade_conflicting_mismatches

In Python the reducer first builds the whole grouping (by metric, parsed
period and Total context), then mutates mismatching members in place.  The
groups are disjoint and the reference of each group is selected before any
member of that group is mutated, so the reducer is equivalent to a pure map
over the original list. -/

structure PipelineItem where
  claim : Claim
  verification : VerdictRec
deriving DecidableEq

def TOTAL_CONTEXTS : List String :=
  ["", "total", "company", "overall", "consolidated"]

/-- Group key: a claim participates only if it is an absolute claim with a
decided verdict, a Total-style context and a parseable period.  The constant
`"total"` third component of the Python key is dropped. -/
def groupKeyOf (it : PipelineItem) : Option (Option String × Int × Int) :=
  if it.claim.claim_type ≠ some "absolute" then none
  else if !(["verified", "close_match", "mismatch"].contains
              it.verification.verdict) then none
  else
    let ctx := pyLower (String.mk (stripChars (it.claim.metric_context.getD "").data))
    if !(TOTAL_CONTEXTS.contains ctx) then none
    else
      match parse_period (it.claim.period.getD "") with
      | none => none
      | some p => some (it.claim.metric_type, p)

/-- Is this item a reconciling reference (verified or close_match)? -/
def isReconciler (it : PipelineItem) : Bool :=
  it.verification.verdict = "verified" || it.verification.verdict = "close_match"

/-- The downgraded verification record. -/
def downgradeVerification (v : VerdictRec) (refClaimId : Option String) : VerdictRec :=
  { v with
    flags :=
      if v.flags.contains "conflicting_transcript_claim" then v.flags
      else v.flags ++ ["conflicting_transcript_claim"],
    verdict := "unverifiable",
    explanation := some (.conflictingTranscriptClaim refClaimId) }

/-- Action of the reducer on a single item, given the full original list. -/
def downgradeOne (l : List PipelineItem) (it : PipelineItem) : PipelineItem :=
  match groupKeyOf it with
  | none => it
  | some k =>
    match l.find? (fun r => groupKeyOf r = some k && isReconciler r) with
    | none => it
    | some ref =>
      if it.verification.verdict = "mismatch" then
        match it.verification.difference_pct with
        | none => it
        | some d =>
          if d.absLt 3.0 then it
          else { it with
                 verification := downgradeVerification it.verification
                   ref.claim.claim_id }
      else it

/-- `_downgrade_conflicting_mismatches`. -/
def downgrade_conflicting_mismatches (l : List PipelineItem) : List PipelineItem :=
  l.map (downgradeOne l)

/-! ## Concrete fixtures used by the claim theorems -/

/-- Build a fact store from an explicit period/metric table (no sources, no
calendar aliases). -/
def mkStore (entries : List ((Int × Int) × List (String × ℚ))) : FactStore :=
  { periods := fun yq =>
      match entries.find? (fun e => e.1 = yq) with
      | some e => some (fun m => (e.2.find? (fun p => p.1 = m)).map Prod.snd)
      | none => none,
    sources := fun _ _ => none,
    aliases := fun _ => none }

/-- The base claim record of the repository's verdict-engine tests. -/
def baseTestClaim : Claim where
  claim_id := some "claim_test"
  metric_type := some "revenue"
  claim_type := some "absolute"
  claimed_value := some 100
  unit := some "dollars"
  scale := some "ones"
  period := some "Q1 2025"
  comparison_period := none
  gaap_classification := some "gaap"
  is_approximate := false
  qualifiers := []
  metric_context := some "Total"
  quote_text := "Revenue was 100"

/-- Projections of an engine result, for closed statements. -/
def verdictOf : Except Unit VerdictRec → Option String
  | .ok v => some v.verdict
  | .error _ => none

def flagsOf : Except Unit VerdictRec → Option (List String)
  | .ok v => some v.flags
  | .error _ => none

def explOf : Except Unit VerdictRec → Option (Option Explanation)
  | .ok v => some v.explanation
  | .error _ => none

def diffPctOf : Except Unit VerdictRec → Option (Option RF)
  | .ok v => some v.difference_pct
  | .error _ => none

/-- The full-year absolute revenue claim of the repository's own test
`TestFullYearSupport.test_full_year_absolute_revenue`. -/
def fullYearRevenueClaim : Claim :=
  { baseTestClaim with
    claimed_value := some 400
    period := some "FY 2025"
    quote_text := "Full-year revenue was 400" }

def fullYearRevenueStore : FactStore :=
  mkStore [((2025, 1), [("revenue", 100)]), ((2025, 2), [("revenue", 100)]),
           ((2025, 3), [("revenue", 100)]), ((2025, 4), [("revenue", 100)])]

/-- C1: a full-year (quarter 0) absolute claim on a summable metric, with all
four quarters present, is rejected as `unverifiable` ("Cannot verify:
full_year") by the early `resolve_periods` error — the engine's own Q1..Q4
aggregation (which would produce exactly the claimed 400) never runs.  This
contradicts the repository's test, which asserts the verdict `verified` with
actual value 400. -/
theorem C1_full_year_rejected_despite_aggregation_support :
    verify_single_claim fullYearRevenueClaim "TEST" 2025 4 fullYearRevenueStore =
      .ok { claim_id := "claim_test", claimed_value := some 400,
            verdict := "unverifiable",
            explanation := some (.cannotVerify "full_year") } ∧
    (sum_full_year_metric fullYearRevenueStore "revenue" 2025 false).total =
      some 400 := by
  exact ⟨rfl, by with_unfolding_all rfl⟩

/-- The full-year YoY growth claim of the repository's own test
`TestPeriodResolver.test_full_year_yoy_baseline` (only the `period` and
`claim_type` keys are set). -/
def fullYearYoyClaim : Claim :=
  { period := some "FY 2025", claim_type := some "yoy_growth" }

/-- C9: the period formats parse as described ("Q3 2024" → (2024, 3),
"FY 2024" → (2024, 0), "3Q24" → (2024, 3), "3Q 2024" → (2024, 3),
"FISCAL 2024" → (2024, 0)), and an unparseable period falls back to the
transcript's own (year, quarter); but for a full-year yoy_growth claim
`resolve_periods` returns the error `full_year` and no baseline at all,
where the claim (and the repository's own test) expects the baseline
(2024, 0). -/
theorem C9_resolver_errors_on_full_year_instead_of_baseline :
    parse_period "Q3 2024" = some (2024, 3) ∧
    parse_period "FY 2024" = some (2024, 0) ∧
    parse_period "3Q24" = some (2024, 3) ∧
    parse_period "3Q 2024" = some (2024, 3) ∧
    parse_period "FISCAL 2024" = some (2024, 0) ∧
    parse_period "next quarter" = none ∧
    resolve_periods { period := some "next quarter" } 2025 3 =
      { target := (2025, 3) } ∧
    resolve_periods fullYearYoyClaim 2025 4 =
      { target := (2025, 0), baseline := none, error := some "full_year" } := by
  refine ⟨rfl, rfl, rfl, rfl, rfl, rfl, rfl, rfl⟩

/-- The claim with a missing `claimed_value` (all other fields as in the
repository's base test claim). -/
def missingValueClaim : Claim := { baseTestClaim with claimed_value := none }

def q1RevenueStore : FactStore := mkStore [((2025, 1), [("revenue", 100)])]

/-- C2 counterexample: an absolute revenue claim whose `claimed_value` is
missing makes `verify_single_claim` raise a `TypeError` (in
`normalize_claimed_value`) instead of returning an `unverifiable`
verdict. -/
theorem C2_counterexample_missing_value_raises :
    verify_single_claim missingValueClaim "TEST" 2025 1 q1RevenueStore =
      .error () := by
  exact rfl

/-- An absolute revenue claim whose actual value is 0. -/
def zeroActualClaim : Claim := { baseTestClaim with period := some "Q2 2025" }

def zeroRevenueStore : FactStore := mkStore [((2025, 2), [("revenue", 0)])]

/-- C3 counterexample: when the actual value is 0 and the claimed value is
not, the absolute percentage-difference denominator is zero, yet the verdict
is `mismatch` — not `unverifiable` — with no flag and with the infinite
sentinel stored in the `difference_pct` field of the returned record. -/
theorem C3_counterexample_zero_actual_gives_mismatch_with_inf :
    verify_single_claim zeroActualClaim "TEST" 2025 2 zeroRevenueStore =
      .ok { claim_id := "claim_test", claimed_value := some 100,
            actual_value := some 0, difference := some 100,
            difference_pct := some .inf, tolerance_used := some 0.005,
            evidence_source := some "fmp",
            financial_facts_used := [⟨"revenue", 2025, 2, 0⟩],
            explanation := some (.absoluteCompared "mismatch" "fmp"),
            verdict := "mismatch" } := by
  with_unfolding_all rfl

/-- A claim on a metric that is not in the verification catalog. -/
def unknownMetricClaim : Claim :=
  { baseTestClaim with
    metric_type := some "other"
    quote_text := "Sales were strong this quarter" }

/-- C4 counterexample: the unknown-metric claim yields the verdict
`unverifiable` with a (single) explanation but with an empty flags list —
the "at least one flag" half of the claim fails. -/
theorem C4_counterexample_unverifiable_without_flag :
    verify_single_claim unknownMetricClaim "TEST" 2025 1 (mkStore []) =
      .ok { claim_id := "claim_test", claimed_value := some 100,
            verdict := "unverifiable",
            explanation := some (.metricNotInCatalog "other") } := by
  exact rfl

/-- An absolute diluted-EPS claim with unknown GAAP basis, claimed 2.00
against a GAAP actual of 1.00 (100% above), quote without any non-GAAP
keyword. -/
def epsDoubleClaim : Claim :=
  { baseTestClaim with
    metric_type := some "eps_diluted"
    claimed_value := some 2
    unit := some "per_share"
    gaap_classification := some "unknown"
    quote_text := "Earnings per share was excellent" }

def epsOneStore : FactStore := mkStore [((2025, 1), [("eps_diluted", 1)])]

/-- C5 counterexample: an absolute EPS claim with GAAP basis unknown that
exceeds the GAAP actual by 100% (> 15%) and has no non-GAAP keyword in the
quote is NOT labelled `misleading`: the value-ratio heuristic (claimed >
1.3× actual) short-circuits first and the verdict is `unverifiable` with the
flag `value_exceeds_actual`. -/
theorem C5_counterexample_large_excess_is_unverifiable :
    verify_single_claim epsDoubleClaim "TEST" 2025 1 epsOneStore =
      .ok { claim_id := "claim_test", claimed_value := some 2,
            actual_value := some 1, evidence_source := some "fmp",
            financial_facts_used := [⟨"eps_diluted", 2025, 1, 1⟩],
            flags := ["value_exceeds_actual"],
            explanation := some (.valueExceedsActual "eps_diluted"),
            verdict := "unverifiable" } := by
  with_unfolding_all rfl

/-- A tiny-denominator EPS claim: actual 0.08, claimed 0.094 (17.5% above,
absolute difference 0.014 ≤ the fixed 0.015 per-share tolerance), GAAP basis
unknown, no non-GAAP keyword. -/
def epsTinyClaim : Claim :=
  { baseTestClaim with
    metric_type := some "eps_diluted"
    claimed_value := some 0.094
    unit := some "per_share"
    gaap_classification := some "unknown"
    quote_text := "Earnings per share was excellent" }

def epsTinyStore : FactStore := mkStore [((2025, 1), [("eps_diluted", 0.08)])]

/-- C7 counterexample: an EPS claim within the fixed per-share tolerance
(|0.094 − 0.08| = 0.014 ≤ 0.015) does NOT end with the verdict `verified`:
the undisclosed-non-GAAP misleading heuristic (claimed > 15% above GAAP,
basis unknown, no disclosure keyword) escalates it to `misleading`. -/
theorem C7_counterexample_tolerance_hit_escalated_to_misleading :
    verdictOf (verify_single_claim epsTinyClaim "TEST" 2025 1 epsTinyStore) =
      some "misleading" ∧
    |(0.094 : ℚ) - 0.08| ≤ EPS_ABSOLUTE_TOLERANCE := by
  exact ⟨by with_unfolding_all rfl, by with_unfolding_all decide⟩

/-! ## C8: multi-quarter aggregation -/

/-- A period is missing from the store (under the given alias mode). -/
def lookupMissing (fmp_data : FactStore) (metric : String) (uca : Bool)
    (p : Int × Int) : Bool :=
  lookup_value fmp_data metric p.1 p.2 uca = none

/-- Value contributed by a period (0 when missing — only relevant once all
periods are known present). -/
def lookupVal (fmp_data : FactStore) (metric : String) (uca : Bool)
    (p : Int × Int) : ℚ :=
  ((lookup_value fmp_data metric p.1 p.2 uca).map Prod.fst).getD 0

theorem sumGo_spec (fmp_data : FactStore) (metric : String) (uca : Bool) :
    ∀ (ps : List (Int × Int)) (acc : ℚ) (srcs : List String)
      (facts : List Fact) (missing : List String),
      (sumGo fmp_data metric uca ps acc srcs facts missing).2.2.2 =
        missing ++ (ps.filter (lookupMissing fmp_data metric uca)).map
          (fun p => periodLabel p.1 p.2) ∧
      (sumGo fmp_data metric uca ps acc srcs facts missing).1 =
        acc + (ps.map (lookupVal fmp_data metric uca)).sum := by
  intro ps
  induction ps with
  | nil => intro acc srcs facts missing; simp [sumGo]
  | cons p rest ih =>
    intro acc srcs facts missing
    obtain ⟨y, q⟩ := p
    by_cases h : lookup_value fmp_data metric y q uca = none
    · have hm : lookupMissing fmp_data metric uca (y, q) = true := by
        simp [lookupMissing, h]
      constructor
      · rw [sumGo]
        rw [h]
        rw [(ih (acc) srcs facts (missing ++ [periodLabel y q])).1]
        simp [hm, List.filter_cons]
      · rw [sumGo]
        rw [h]
        rw [(ih (acc) srcs facts (missing ++ [periodLabel y q])).2]
        simp [lookupVal, h]
    · obtain ⟨⟨v, src⟩, hv⟩ := Option.ne_none_iff_exists'.mp h
      have hm : lookupMissing fmp_data metric uca (y, q) = false := by
        simp [lookupMissing, hv]
      constructor
      · rw [sumGo]
        rw [hv]
        rw [(ih (acc + v) _ _ missing).1]
        simp [hm, List.filter_cons]
      · rw [sumGo]
        rw [hv]
        rw [(ih (acc + v) _ _ missing).2]
        simp [lookupVal, hv]
        ring

theorem sum_metric_missing_eq (fmp_data : FactStore) (metric : String)
    (periods : List (Int × Int)) (uca : Bool) :
    (sum_metric_for_periods fmp_data metric periods uca).missing =
      (periods.filter (lookupMissing fmp_data metric uca)).map
        (fun p => periodLabel p.1 p.2) := by
  have h := (sumGo_spec fmp_data metric uca periods 0 [] [] []).1
  unfold sum_metric_for_periods
  rcases hg : sumGo fmp_data metric uca periods 0 [] [] [] with ⟨t, sl, f, m⟩
  rw [hg] at h
  simp only [List.nil_append] at h
  by_cases hm : m = [] <;> simp [hm, ← h]

theorem sum_metric_none_iff (fmp_data : FactStore) (metric : String)
    (periods : List (Int × Int)) (uca : Bool) :
    (sum_metric_for_periods fmp_data metric periods uca).total = none ↔
      ∃ p ∈ periods, lookup_value fmp_data metric p.1 p.2 uca = none := by
  have h := (sumGo_spec fmp_data metric uca periods 0 [] [] []).1
  unfold sum_metric_for_periods
  rcases hg : sumGo fmp_data metric uca periods 0 [] [] [] with ⟨t, sl, f, m⟩
  rw [hg] at h
  simp only [List.nil_append] at h
  by_cases hm : m = []
  · have hfil : periods.filter (lookupMissing fmp_data metric uca) = [] := by
      have : (periods.filter (lookupMissing fmp_data metric uca)).map
          (fun p => periodLabel p.1 p.2) = [] := by rw [← h, hm]
      exact List.map_eq_nil_iff.mp this
    have hall := List.filter_eq_nil_iff.mp hfil
    simp only [hm, hg]
    constructor
    · intro hnone; simp at hnone
    · rintro ⟨p, hp, hnone⟩
      have hbt : lookupMissing fmp_data metric uca p = true := by
        simp [lookupMissing, hnone]
      exact absurd hbt (by simpa using hall p hp)
  · have hfne : periods.filter (lookupMissing fmp_data metric uca) ≠ [] := by
      intro hfe
      exact hm (by rw [h, hfe]; simp)
    obtain ⟨p, hp⟩ := List.exists_mem_of_ne_nil _ hfne
    obtain ⟨hpm, hpb⟩ := List.mem_filter.mp hp
    simp only [hm, hg]
    constructor
    · intro _
      exact ⟨p, hpm, by simpa [lookupMissing] using hpb⟩
    · intro _; simp [hm]

theorem sum_metric_some_exact (fmp_data : FactStore) (metric : String)
    (periods : List (Int × Int)) (uca : Bool) (t : ℚ)
    (h : (sum_metric_for_periods fmp_data metric periods uca).total = some t) :
    (sum_metric_for_periods fmp_data metric periods uca).missing = [] ∧
    (∀ p ∈ periods, lookup_value fmp_data metric p.1 p.2 uca ≠ none) ∧
    t = (periods.map (lookupVal fmp_data metric uca)).sum := by
  have hs := sumGo_spec fmp_data metric uca periods 0 [] [] []
  unfold sum_metric_for_periods at h ⊢
  rcases hg : sumGo fmp_data metric uca periods 0 [] [] [] with ⟨tt, sl, f, m⟩
  rw [hg] at h hs
  simp only [List.nil_append] at hs
  by_cases hm : m = []
  · have hfil : periods.filter (lookupMissing fmp_data metric uca) = [] := by
      have : (periods.filter (lookupMissing fmp_data metric uca)).map
          (fun p => periodLabel p.1 p.2) = [] := by rw [← hs.1, hm]
      exact List.map_eq_nil_iff.mp this
    have hall := List.filter_eq_nil_iff.mp hfil
    simp only [hm] at h
    simp only [ne_eq, not_true_eq_false, if_false, reduceIte] at h
    have ht : tt = t := by simpa using h
    refine ⟨by simp [hm], ?_, ?_⟩
    · intro p hp hpn
      have hbt : lookupMissing fmp_data metric uca p = true := by
        simp [lookupMissing, hpn]
      exact absurd hbt (by simpa using hall p hp)
    · rw [← ht]
      simpa using hs.2
  · simp [hm] at h

/-- The TTM trigger condition of `_determine_multiperiod_periods`. -/
def ttmWindowKw (ql : List Char) : Bool :=
  containsSub ql "trailing twelve".data ||
  containsSub ql "trailing 12".data ||
  containsSub ql "ttm".data ||
  containsSub ql "last 12 months".data ||
  containsSub ql "past year".data

/-- The YTD trigger condition of `_determine_multiperiod_periods`. -/
def ytdWindowKw (ql : List Char) : Bool :=
  containsSub ql "year-to-date".data || boundedSearch [litT "ytd"] isWordChar ql

theorem determine_window_ttm (ql : List Char) (y q : Int)
    (h : ttmWindowKw ql = true) :
    determine_multiperiod_periods ql y q = some (ttm_periods y q, "TTM") := by
  have h' := h
  unfold ttmWindowKw at h'
  unfold determine_multiperiod_periods
  rw [h']
  rfl

theorem determine_window_first_half (ql : List Char) (y q : Int)
    (h1 : ttmWindowKw ql = false)
    (h2 : containsSub ql "first half".data = true) :
    determine_multiperiod_periods ql y q =
      some ([(y, 1), (y, 2)], "first_half") := by
  have h1' := h1
  unfold ttmWindowKw at h1'
  unfold determine_multiperiod_periods
  rw [h1', h2]
  rfl

theorem determine_window_first_nine (ql : List Char) (y q : Int)
    (h1 : ttmWindowKw ql = false)
    (h2 : containsSub ql "first half".data = false)
    (h3 : containsSub ql "first nine months".data = true) :
    determine_multiperiod_periods ql y q =
      some ([(y, 1), (y, 2), (y, 3)], "first_nine_months") := by
  have h1' := h1
  unfold ttmWindowKw at h1'
  unfold determine_multiperiod_periods
  rw [h1', h2, h3]
  rfl

theorem determine_window_ytd (ql : List Char) (y q : Int)
    (h1 : ttmWindowKw ql = false)
    (h2 : containsSub ql "first half".data = false)
    (h3 : containsSub ql "first nine months".data = false)
    (h4 : ytdWindowKw ql = true)
    (hq : q = 1 ∨ q = 2 ∨ q = 3 ∨ q = 4) :
    determine_multiperiod_periods ql y q =
      some (((List.range q.toNat).map (fun i => (y, (i : Int) + 1))), "ytd") := by
  have h1' := h1
  unfold ttmWindowKw at h1'
  have h4' := h4
  unfold ytdWindowKw at h4'
  unfold determine_multiperiod_periods
  rw [h1', h2, h3, h4']
  simp [if_pos hq]

/-- C8: the aggregation windows are exactly the explicit period lists —
full year Q1..Q4, TTM = target plus the three preceding quarters, first half
Q1–Q2, first nine months Q1–Q3, YTD Q1..target — and
`_sum_metric_for_periods` returns no sum (with the missing periods reported
exactly, in order) whenever any required quarter is absent; a sum is
returned only when every period is present, and then it is the exact sum of
their values. -/
theorem C8_aggregation_explicit_windows_and_total_or_missing :
    (∀ y : Int, full_year_periods y = [(y, 1), (y, 2), (y, 3), (y, 4)]) ∧
    (∀ y q : Int, ttm_periods y q =
       [(y, q), previous_quarter y q,
        previous_quarter (previous_quarter y q).1 (previous_quarter y q).2,
        previous_quarter
          (previous_quarter (previous_quarter y q).1 (previous_quarter y q).2).1
          (previous_quarter (previous_quarter y q).1 (previous_quarter y q).2).2]) ∧
    ttm_periods 2025 2 = [(2025, 2), (2025, 1), (2024, 4), (2024, 3)] ∧
    (∀ (ql : List Char) (y q : Int), ttmWindowKw ql = true →
       determine_multiperiod_periods ql y q = some (ttm_periods y q, "TTM")) ∧
    (∀ (ql : List Char) (y q : Int), ttmWindowKw ql = false →
       containsSub ql "first half".data = true →
       determine_multiperiod_periods ql y q =
         some ([(y, 1), (y, 2)], "first_half")) ∧
    (∀ (ql : List Char) (y q : Int), ttmWindowKw ql = false →
       containsSub ql "first half".data = false →
       containsSub ql "first nine months".data = true →
       determine_multiperiod_periods ql y q =
         some ([(y, 1), (y, 2), (y, 3)], "first_nine_months")) ∧
    (∀ (ql : List Char) (y : Int), ttmWindowKw ql = false →
       containsSub ql "first half".data = false →
       containsSub ql "first nine months".data = false →
       ytdWindowKw ql = true →
       determine_multiperiod_periods ql y 3 =
         some ([(y, 1), (y, 2), (y, 3)], "ytd")) ∧
    (∀ (fmp_data : FactStore) (metric : String) (periods : List (Int × Int))
       (uca : Bool),
       ((sum_metric_for_periods fmp_data metric periods uca).total = none ↔
          ∃ p ∈ periods, lookup_value fmp_data metric p.1 p.2 uca = none) ∧
       (sum_metric_for_periods fmp_data metric periods uca).missing =
         (periods.filter (lookupMissing fmp_data metric uca)).map
           (fun p => periodLabel p.1 p.2) ∧
       (∀ t : ℚ,
          (sum_metric_for_periods fmp_data metric periods uca).total = some t →
          (sum_metric_for_periods fmp_data metric periods uca).missing = [] ∧
          (∀ p ∈ periods, lookup_value fmp_data metric p.1 p.2 uca ≠ none) ∧
          t = (periods.map (lookupVal fmp_data metric uca)).sum)) := by
  refine ⟨fun y => rfl, fun y q => rfl, by with_unfolding_all rfl,
          determine_window_ttm, determine_window_first_half,
          determine_window_first_nine, ?_, ?_⟩
  · intro ql y h1 h2 h3 h4
    have := determine_window_ytd ql y 3 h1 h2 h3 h4 (by norm_num)
    simpa using this
  · intro fmp_data metric periods uca
    exact ⟨sum_metric_none_iff fmp_data metric periods uca,
           sum_metric_missing_eq fmp_data metric periods uca,
           fun t ht => sum_metric_some_exact fmp_data metric periods uca t ht⟩

/-- A store holding Q1–Q3 2025 revenue only. -/
def threeQuarterStore : FactStore :=
  mkStore [((2025, 1), [("revenue", 10)]), ((2025, 2), [("revenue", 20)]),
           ((2025, 3), [("revenue", 30)])]

/-- Witness for C8: at a concrete store and quote the TTM window resolves to
the four explicit quarters, a Q1..Q3 sum is the exact total 60, and the
full-year sum over the same store fails, reporting exactly the missing
"Q4 2025". -/
theorem C8_aggregation_witness :
    determine_multiperiod_periods "the ttm figure".data 2025 2 =
      some ([(2025, 2), (2025, 1), (2024, 4), (2024, 3)], "TTM") ∧
    (sum_metric_for_periods threeQuarterStore "revenue"
        [(2025, 1), (2025, 2), (2025, 3)] false).total = some 60 ∧
    (sum_metric_for_periods threeQuarterStore "revenue"
        (full_year_periods 2025) false).missing = ["Q4 2025"] ∧
    (sum_metric_for_periods threeQuarterStore "revenue"
        (full_year_periods 2025) false).total = none ∧
    (60 : ℚ) = (([(2025, 1), (2025, 2), (2025, 3)] :
        List (Int × Int)).map (lookupVal threeQuarterStore "revenue" false)).sum := by
  have hwin := (C8_aggregation_explicit_windows_and_total_or_missing).2.2.2.1
    "the ttm figure".data 2025 2 (by with_unfolding_all rfl)
  have hsum := ((C8_aggregation_explicit_windows_and_total_or_missing).2.2.2.2.2.2.2
    threeQuarterStore "revenue" [(2025, 1), (2025, 2), (2025, 3)] false).2.2
    60 (by with_unfolding_all rfl)
  refine ⟨by rw [hwin]; with_unfolding_all rfl,
          by with_unfolding_all rfl,
          by with_unfolding_all rfl,
          by with_unfolding_all rfl,
          hsum.2.2⟩

/-! ## C6: batch conflict downgrade -/

/-- C6: within a group (same metric, same parsed period, Total context), a
mismatching claim whose difference is at least 3 percentage points is
downgraded to `unverifiable`, tagged `conflicting_transcript_claim`, and its
explanation cross-references a reconciling (verified/close_match) sibling of
the same group, while the reconciling claim itself is left unchanged; and a
claim in a group with no reconciling sibling is never downgraded. -/
theorem C6_conflict_downgrade_mismatch_with_reconciler :
    (∀ (l : List PipelineItem) (i j : Nat) (ri rj : PipelineItem)
       (k : Option String × Int × Int) (d : RF),
       l.get? i = some ri → l.get? j = some rj →
       groupKeyOf ri = some k → groupKeyOf rj = some k →
       isReconciler ri = true →
       rj.verification.verdict = "mismatch" →
       rj.verification.difference_pct = some d →
       d.absLt 3.0 = false →
       ∃ ref : PipelineItem,
         ref ∈ l ∧ groupKeyOf ref = some k ∧ isReconciler ref = true ∧
         (downgrade_conflicting_mismatches l).get? j =
           some { rj with verification :=
                    downgradeVerification rj.verification ref.claim.claim_id } ∧
         (downgradeVerification rj.verification ref.claim.claim_id).verdict =
           "unverifiable" ∧
         (downgradeVerification rj.verification
             ref.claim.claim_id).flags.contains "conflicting_transcript_claim" =
           true ∧
         (downgradeVerification rj.verification ref.claim.claim_id).explanation =
           some (.conflictingTranscriptClaim ref.claim.claim_id) ∧
         (downgrade_conflicting_mismatches l).get? i = some ri) ∧
    (∀ (l : List PipelineItem) (j : Nat) (rj : PipelineItem),
       l.get? j = some rj →
       (∀ r ∈ l, groupKeyOf r = groupKeyOf rj → isReconciler r = false) →
       (downgrade_conflicting_mismatches l).get? j = some rj) := by
  constructor
  · intro l i j ri rj k d hgi hgj hki hkj hrec hmis hdp hdlt
    have hmem : ri ∈ l := List.get?_mem hgi
    have hsome : (l.find? (fun r => groupKeyOf r = some k && isReconciler r)).isSome := by
      rw [List.find?_isSome]
      exact ⟨ri, hmem, by simp [hki, hrec]⟩
    obtain ⟨ref, href⟩ := Option.isSome_iff_exists.mp hsome
    have hrefp := List.find?_some href
    have hrefmemd := List.mem_of_find?_eq_some href
    simp only [Bool.and_eq_true, decide_eq_true_eq] at hrefp
    refine ⟨ref, hrefmemd, hrefp.1, hrefp.2, ?_, ?_, ?_, ?_, ?_⟩
    · rw [downgrade_conflicting_mismatches, List.get?_map, hgj]
      simp only [Option.map_some']
      congr 1
      rw [downgradeOne, hkj]
      simp only [href]
      rw [hmis]
      simp [hdp, hdlt]
    · simp [downgradeVerification]
    · unfold downgradeVerification
      by_cases hc : rj.verification.flags.contains "conflicting_transcript_claim" <;>
        simp_all [List.elem_eq_mem]
    · simp [downgradeVerification]
    · rw [downgrade_conflicting_mismatches, List.get?_map, hgi]
      simp only [Option.map_some']
      congr 1
      rw [downgradeOne, hki]
      simp only [href]
      have : ri.verification.verdict ≠ "mismatch" := by
        unfold isReconciler at hrec
        rcases (Bool.or_eq_true _ _).mp hrec with h | h <;>
          simp only [decide_eq_true_eq] at h <;> simp [h]
      simp [this]
  · intro l j rj hgj hno
    rw [downgrade_conflicting_mismatches, List.get?_map, hgj]
    simp only [Option.map_some']
    congr 1
    rw [downgradeOne]
    cases hk : groupKeyOf rj with
    | none => rfl
    | some k =>
      have hfind : l.find? (fun r => groupKeyOf r = some k && isReconciler r) = none := by
        rw [List.find?_eq_none]
        intro r hr
        by_cases hrk : groupKeyOf r = some k
        · have := hno r hr (by rw [hrk, hk])
          simp [this]
        · simp [hrk]
      simp only [hfind]

def pipeVerdictOf : Option PipelineItem → Option String
  | some it => some it.verification.verdict
  | none => none

/-- A verified Total-context absolute revenue claim (the reconciler). -/
def reconItem : PipelineItem :=
  { claim := { baseTestClaim with claim_id := some "c1" },
    verification := { claim_id := "c1", claimed_value := some 100,
                      verdict := "verified" } }

def misClaim : Claim :=
  { baseTestClaim with claim_id := some "c2", claimed_value := some 105 }

/-- A mismatching sibling of the same metric/period/context, 5pp off. -/
def misItem : PipelineItem :=
  { claim := misClaim,
    verification := { claim_id := "c2", claimed_value := some 105,
                      verdict := "mismatch",
                      difference_pct := some (.fin 5) } }

/-- Witness for C6: with a verified sibling the 5pp mismatch is downgraded
to `unverifiable` and the verified claim is untouched; alone, the same
mismatch is left as `mismatch`. -/
theorem C6_conflict_downgrade_witness :
    pipeVerdictOf ((downgrade_conflicting_mismatches [reconItem, misItem]).get? 1) =
      some "unverifiable" ∧
    (downgrade_conflicting_mismatches [reconItem, misItem]).get? 0 =
      some reconItem ∧
    pipeVerdictOf ((downgrade_conflicting_mismatches [misItem]).get? 0) =
      some "mismatch" := by
  obtain ⟨ref, -, -, -, hj, hv, -, -, hi⟩ :=
    (C6_conflict_downgrade_mismatch_with_reconciler).1
      [reconItem, misItem] 0 1 reconItem misItem
      (some "revenue", 2025, 1) (.fin 5)
      (by rfl) (by rfl)
      (by with_unfolding_all rfl) (by with_unfolding_all rfl)
      (by rfl) (by rfl) (by rfl) (by with_unfolding_all rfl)
  refine ⟨?_, hi, ?_⟩
  · rw [hj]
    simp only [pipeVerdictOf, hv]
  · have h2 := (C6_conflict_downgrade_mismatch_with_reconciler).2
      [misItem] 0 misItem (by rfl)
      (by intro r hr _
          have : r = misItem := by simpa using hr
          subst this
          rfl)
    rw [h2]
    rfl

/-! ## C10: the revenue-growth definition guard -/

/-- A Total-context Q2-2025 revenue growth claim in percent, with the quote
left free. -/
def growthClaimOf (ct : String) (cv : ℚ) (quote : String) : Claim :=
  { claim_id := some "g1", metric_type := some "revenue",
    claim_type := some ct, claimed_value := some cv,
    unit := some "percent", scale := none, period := some "Q2 2025",
    comparison_period := none, gaap_classification := some "gaap",
    is_approximate := false, qualifiers := [],
    metric_context := some "Total", quote_text := quote }

def catRevenue : CatalogEntry := ⟨some "revenue", none, "direct"⟩

/-- For this claim family the engine preamble reduces definitionally to the
growth branch (the quote never has to be inspected before it). -/
theorem growth_preamble_yoy (quote : String) (cv : ℚ) (fs : FactStore) :
    verify_single_claim (growthClaimOf "yoy_growth" cv quote) "T" 2025 2 fs =
      growthBranch (growthClaimOf "yoy_growth" cv quote) fs
        { claim_id := "g1", claimed_value := some cv } "revenue" (some cv)
        false catRevenue 2025 2 (some (2024, 2)) false "yoy_growth" := by
  with_unfolding_all rfl

theorem growth_preamble_qoq (quote : String) (cv : ℚ) (fs : FactStore) :
    verify_single_claim (growthClaimOf "qoq_growth" cv quote) "T" 2025 2 fs =
      growthBranch (growthClaimOf "qoq_growth" cv quote) fs
        { claim_id := "g1", claimed_value := some cv } "revenue" (some cv)
        false catRevenue 2025 2 (some (2025, 1)) false "qoq_growth" := by
  with_unfolding_all rfl

theorem growth_big_mismatch_unverifiable (ct quote : String)
    (cv cur prior : ℚ) (fs : FactStore) (src1 src2 : String) (byr bqr : Int)
    (hct : ct = "yoy_growth" ∧ (byr, bqr) = ((2024 : Int), (2 : Int)) ∨
           ct = "qoq_growth" ∧ (byr, bqr) = ((2025 : Int), (1 : Int)))
    (hseg : segmentKwSearch (pyLower quote).data = false)
    (hcur : lookup_value fs "revenue" 2025 2 false = some (cur, src1))
    (hpri : lookup_value fs "revenue" byr bqr false = some (prior, src2))
    (hpz : prior ≠ 0)
    (hbig : |cv - (cur - prior) / |prior| * 100| > 3) :
    verdictOf (verify_single_claim (growthClaimOf ct cv quote) "T" 2025 2 fs) =
      some "unverifiable" ∧
    flagsOf (verify_single_claim (growthClaimOf ct cv quote) "T" 2025 2 fs) =
      some ["revenue_growth_definition_mismatch"] := by
  have hisseg : ∀ c : String,
      is_segment_claim (growthClaimOf c cv quote) = false := by
    intro c
    with_unfolding_all exact hseg
  rcases hct with ⟨hc, hb⟩ | ⟨hc, hb⟩ <;> subst hc <;>
    injection hb with hb1 hb2 <;> subst hb1 <;> subst hb2
  · rw [growth_preamble_yoy]
    unfold growthBranch
    rw [hisseg]
    simp only [Bool.and_false, Bool.false_eq_true, if_false]
    norm_num
    simp only [catRevenue, Option.getD_some]
    rw [hcur, hpri]
    simp only [verify_growth, compute_yoy_growth, if_neg hpz]
    rw [if_pos]
    · exact ⟨rfl, rfl⟩
    · simpa using hbig
  · rw [growth_preamble_qoq]
    unfold growthBranch
    rw [hisseg]
    simp only [Bool.and_false, Bool.false_eq_true, if_false]
    norm_num
    simp only [catRevenue, Option.getD_some]
    rw [hcur, hpri]
    simp only [verify_growth, compute_yoy_growth, if_neg hpz]
    rw [if_pos]
    · exact ⟨rfl, rfl⟩
    · simpa using hbig

/-- C10: for a revenue growth claim (YoY or QoQ) that reaches numeric
comparison (both periods found, prior ≠ 0, not a segment claim), a gap of
more than 3.0 percentage points between claimed and computed growth always
yields `unverifiable` with the flag `revenue_growth_definition_mismatch` —
the quote plays no role — and consequently a `mismatch` verdict can only
occur when the gap is at most 3.0 percentage points. -/
theorem C10_revenue_growth_over_3pp_unverifiable (ct quote : String)
    (cv cur prior : ℚ) (fs : FactStore) (src1 src2 : String) (byr bqr : Int)
    (hct : ct = "yoy_growth" ∧ (byr, bqr) = ((2024 : Int), (2 : Int)) ∨
           ct = "qoq_growth" ∧ (byr, bqr) = ((2025 : Int), (1 : Int)))
    (hseg : segmentKwSearch (pyLower quote).data = false)
    (hcur : lookup_value fs "revenue" 2025 2 false = some (cur, src1))
    (hpri : lookup_value fs "revenue" byr bqr false = some (prior, src2))
    (hpz : prior ≠ 0) :
    (|cv - (cur - prior) / |prior| * 100| > 3 →
       verdictOf (verify_single_claim (growthClaimOf ct cv quote) "T" 2025 2 fs) =
         some "unverifiable" ∧
       flagsOf (verify_single_claim (growthClaimOf ct cv quote) "T" 2025 2 fs) =
         some ["revenue_growth_definition_mismatch"]) ∧
    (verdictOf (verify_single_claim (growthClaimOf ct cv quote) "T" 2025 2 fs) =
       some "mismatch" →
     |cv - (cur - prior) / |prior| * 100| ≤ 3) := by
  constructor
  · intro hbig
    exact growth_big_mismatch_unverifiable ct quote cv cur prior fs src1 src2
      byr bqr hct hseg hcur hpri hpz hbig
  · intro hm
    by_contra hgt
    push_neg at hgt
    have := (growth_big_mismatch_unverifiable ct quote cv cur prior fs src1 src2
      byr bqr hct hseg hcur hpri hpz hgt).1
    rw [hm] at this
    simp at this

def c10Store : FactStore :=
  mkStore [((2025, 2), [("revenue", 100)]), ((2024, 2), [("revenue", 98)])]

/-- Witness for C10: claimed 10% YoY revenue growth against computed
≈2.04% (gap ≈7.96pp > 3pp) is `unverifiable` with the definition-mismatch
flag, not `mismatch`. -/
theorem C10_revenue_growth_witness :
    verdictOf (verify_single_claim
        (growthClaimOf "yoy_growth" 10 "Revenue grew nicely") "T" 2025 2
        c10Store) = some "unverifiable" ∧
    flagsOf (verify_single_claim
        (growthClaimOf "yoy_growth" 10 "Revenue grew nicely") "T" 2025 2
        c10Store) = some ["revenue_growth_definition_mismatch"] := by
  exact (C10_revenue_growth_over_3pp_unverifiable "yoy_growth"
    "Revenue grew nicely" 10 100 98 c10Store "fmp" "fmp" 2024 2
    (Or.inl ⟨rfl, rfl⟩)
    (by with_unfolding_all rfl)
    (by with_unfolding_all rfl)
    (by with_unfolding_all rfl)
    (by norm_num)).1 (by with_unfolding_all decide)

/-! ## C3 (amended): zero denominators -/

/-- A Total-context Q2-2025 gross-margin claim with a fixed neutral quote. -/
def marginClaimOf (cv : ℚ) : Claim :=
  { claim_id := some "m1", metric_type := some "gross_margin",
    claim_type := some "margin", claimed_value := some cv,
    unit := some "percent", scale := none, period := some "Q2 2025",
    comparison_period := none, gaap_classification := some "gaap",
    is_approximate := false, qualifiers := [],
    metric_context := some "Total", quote_text := "Gross margin was strong." }

/-- Store with a gross-profit figure but zero revenue in Q2 2025. -/
def zeroDenStore (g : ℚ) : FactStore :=
  mkStore [((2025, 2), [("gross_profit", g), ("revenue", 0)])]

/-- An absolute Q2-2025 revenue claim with claimed value `cv`. -/
def absClaimOf (cv : ℚ) : Claim :=
  { baseTestClaim with claimed_value := some cv, period := some "Q2 2025" }

/-- C3 (amended): a zero denominator never crashes the engine, and growth
with a zero prior or a margin with a zero denominator is `unverifiable` —
but with an empty flags list, not a zero-denominator flag — while an
absolute claim against an actual of 0 is NOT `unverifiable`: it proceeds to
comparison, gets the verdict `mismatch`, and stores the infinite sentinel in
its `difference_pct` field. -/
theorem C3_zero_denominators_unverifiable_but_unflagged :
    (∀ (quote : String) (cv cur : ℚ) (fs : FactStore) (src1 src2 : String),
       segmentKwSearch (pyLower quote).data = false →
       lookup_value fs "revenue" 2025 2 false = some (cur, src1) →
       lookup_value fs "revenue" 2024 2 false = some (0, src2) →
       verdictOf (verify_single_claim (growthClaimOf "yoy_growth" cv quote)
           "T" 2025 2 fs) = some "unverifiable" ∧
       flagsOf (verify_single_claim (growthClaimOf "yoy_growth" cv quote)
           "T" 2025 2 fs) = some [] ∧
       explOf (verify_single_claim (growthClaimOf "yoy_growth" cv quote)
           "T" 2025 2 fs) = some (some .priorPeriodZero)) ∧
    (∀ (cv g : ℚ),
       verdictOf (verify_single_claim (marginClaimOf cv) "T" 2025 2
           (zeroDenStore g)) = some "unverifiable" ∧
       flagsOf (verify_single_claim (marginClaimOf cv) "T" 2025 2
           (zeroDenStore g)) = some [] ∧
       explOf (verify_single_claim (marginClaimOf cv) "T" 2025 2
           (zeroDenStore g)) = some (some .denominatorZero)) ∧
    (∀ cv : ℚ, cv ≠ 0 →
       verdictOf (verify_single_claim (absClaimOf cv) "T" 2025 2
           zeroRevenueStore) = some "mismatch" ∧
       diffPctOf (verify_single_claim (absClaimOf cv) "T" 2025 2
           zeroRevenueStore) = some (some .inf) ∧
       flagsOf (verify_single_claim (absClaimOf cv) "T" 2025 2
           zeroRevenueStore) = some []) := by
  refine ⟨?_, ?_, ?_⟩
  · intro quote cv cur fs src1 src2 hseg hcur hpri
    have hisseg : is_segment_claim (growthClaimOf "yoy_growth" cv quote) = false := by
      with_unfolding_all exact hseg
    rw [growth_preamble_yoy]
    unfold growthBranch
    rw [hisseg]
    simp only [Bool.and_false, Bool.false_eq_true, if_false]
    norm_num
    simp only [catRevenue, Option.getD_some]
    rw [hcur, hpri]
    simp only [verify_growth, compute_yoy_growth, if_pos rfl]
    exact ⟨rfl, rfl, rfl⟩
  · intro cv g
    exact ⟨by with_unfolding_all rfl, by with_unfolding_all rfl,
           by with_unfolding_all rfl⟩
  · intro cv hcv
    have hn : cv * 1 ≠ 0 := by simpa using hcv
    have hfull : verify_single_claim (absClaimOf cv) "T" 2025 2
        zeroRevenueStore =
        .ok { claim_id := "claim_test", claimed_value := some cv,
              actual_value := some 0, difference := some (cv * 1 - 0),
              difference_pct := some (if cv * 1 ≠ 0 then RF.inf else RF.fin 0),
              tolerance_used := some 0.005, evidence_source := some "fmp",
              financial_facts_used := [⟨"revenue", 2025, 2, 0⟩],
              explanation := some (.absoluteCompared "mismatch" "fmp"),
              verdict := "mismatch" } := by
      with_unfolding_all rfl
    rw [hfull]
    refine ⟨rfl, ?_, rfl⟩
    simp only [diffPctOf, if_pos hn]

def zeroPriorStore : FactStore :=
  mkStore [((2025, 2), [("revenue", 110)]), ((2024, 2), [("revenue", 0)])]

/-- Witness for C3: a 10% YoY revenue growth claim against a zero prior is
`unverifiable` with no flag, and a 100-vs-0 absolute claim is a `mismatch`
carrying the infinite sentinel. -/
theorem C3_zero_denominator_witness :
    verdictOf (verify_single_claim (growthClaimOf "yoy_growth" 10
        "Revenue grew strongly") "T" 2025 2 zeroPriorStore) =
      some "unverifiable" ∧
    flagsOf (verify_single_claim (growthClaimOf "yoy_growth" 10
        "Revenue grew strongly") "T" 2025 2 zeroPriorStore) = some [] ∧
    verdictOf (verify_single_claim (absClaimOf 100) "T" 2025 2
        zeroRevenueStore) = some "mismatch" ∧
    diffPctOf (verify_single_claim (absClaimOf 100) "T" 2025 2
        zeroRevenueStore) = some (some .inf) := by
  have h1 := (C3_zero_denominators_unverifiable_but_unflagged).1
    "Revenue grew strongly" 10 110 zeroPriorStore "fmp" "fmp"
    (by with_unfolding_all rfl)
    (by with_unfolding_all rfl)
    (by with_unfolding_all rfl)
  have h3 := (C3_zero_denominators_unverifiable_but_unflagged).2.2
    100 (by norm_num)
  exact ⟨h1.1, h1.2.1, h3.1, h3.2.1⟩

end EarningsAnalyst

namespace EarningsAnalyst

def epsClaimOf (g : String) (cv : ℚ) : Claim :=
  { claim_id := some "e1", metric_type := some "eps_diluted",
    claim_type := some "absolute", claimed_value := some cv,
    unit := some "per_share", scale := none, period := some "Q1 2025",
    comparison_period := none, gaap_classification := some g,
    is_approximate := false, qualifiers := [],
    metric_context := some "Total", quote_text := "Earnings per share was excellent" }

def epsStoreOf (a : ℚ) : FactStore := mkStore [((2025, 1), [("eps_diluted", a)])]

def catEps : CatalogEntry := ⟨some "eps_diluted", none, "direct"⟩

theorem eps_preamble_gaap (cv : ℚ) (fs : FactStore) :
    verify_single_claim (epsClaimOf "gaap" cv) "T" 2025 1 fs =
      absolutePlain (epsClaimOf "gaap" cv) "T" fs
        { claim_id := "e1", claimed_value := some cv } "eps_diluted" (some cv)
        false "gaap" (pyLower "Earnings per share was excellent").data
        catEps 2025 1 false := by
  with_unfolding_all rfl

theorem dg_eps (cv a : ℚ) (ql : List Char) (ha : a > 0) (hle : cv ≤ 1.3 * a) :
    definition_gap_check "eps_diluted" (some cv) a ql = .ok none := by
  have hne : ¬ (a = 0) := ne_of_gt ha
  have hr : ¬ (cv / a > 1.30) := by
    rw [gt_iff_lt, lt_div_iff ha]
    linarith
  unfold definition_gap_check
  rw [if_neg hne]
  simp only [withNum]
  simp [hr]

theorem c7_try (cv a : ℚ) (ha : a > 0) (hle : cv ≤ 1.3 * a)
    (htol : |cv - a| ≤ EPS_ABSOLUTE_TOLERANCE) :
    verdictOf (verify_single_claim (epsClaimOf "gaap" cv) "T" 2025 1
        (epsStoreOf a)) = some "verified" := by
  rw [eps_preamble_gaap]
  have hlook : lookup_value (epsStoreOf a) "eps_diluted" 2025 1 false =
      some (a, "fmp") := by with_unfolding_all rfl
  have h13 : ¬ (cv > a * 1.30) := by nlinarith
  unfold absolutePlain
  simp only [catEps, Option.getD_some]
  simp only [hlook,
    dg_eps cv a (pyLower "Earnings per share was excellent").data ha hle]
  simp only [orElseV, withNum]
  simp [ha, h13, VALUE_CHECK_METRICS]
  rw [if_pos htol]
  with_unfolding_all rfl

theorem run_heuristics_gaap_eps (cv a : ℚ) :
    run_all_heuristics (epsClaimOf "gaap" cv) (epsStoreOf a) 2025 1 = ([], []) := by
  with_unfolding_all rfl

theorem apply_misleading_gaap_eps_id (r : VerdictRec) (cv a : ℚ) :
    apply_misleading_checks r (epsClaimOf "gaap" cv) (epsStoreOf a) 2025 1 = r := by
  unfold apply_misleading_checks
  rw [run_heuristics_gaap_eps]
  split_ifs <;> simp_all

theorem c7_band_try (cv a : ℚ) (ha : a > 0) (hle : cv ≤ 1.3 * a)
    (htol : ¬ (|cv - a| ≤ EPS_ABSOLUTE_TOLERANCE)) :
    verdictOf (verify_single_claim (epsClaimOf "gaap" cv) "T" 2025 1
        (epsStoreOf a)) =
      some (bandOf (.fin (|cv - a| / |a|)) (get_tolerance "eps_diluted" false)) := by
  rw [eps_preamble_gaap]
  have hlook : lookup_value (epsStoreOf a) "eps_diluted" 2025 1 false =
      some (a, "fmp") := by with_unfolding_all rfl
  have h13 : ¬ (cv > a * 1.30) := by nlinarith
  have hane : a ≠ 0 := ne_of_gt ha
  unfold absolutePlain
  simp only [catEps, Option.getD_some]
  simp only [hlook,
    dg_eps cv a (pyLower "Earnings per share was excellent").data ha hle]
  simp only [orElseV, withNum]
  simp [ha, h13, VALUE_CHECK_METRICS]
  rw [if_neg htol]
  simp only [verify_absolute, withNum]
  rw [apply_misleading_gaap_eps_id]
  simp [hane]
  rfl

theorem eps_preamble_unknown (cv : ℚ) (fs : FactStore) :
    verify_single_claim (epsClaimOf "unknown" cv) "T" 2025 1 fs =
      absolutePlain (epsClaimOf "unknown" cv) "T" fs
        { claim_id := "e1", claimed_value := some cv } "eps_diluted" (some cv)
        false "unknown" (pyLower "Earnings per share was excellent").data
        catEps 2025 1 false := by
  with_unfolding_all rfl

theorem mix_eps_unknown (cv a : ℚ) :
    check_gaap_nongaap_mixing (epsClaimOf "unknown" cv) (epsStoreOf a) 2025 1 =
      (if a = 0 then ([], [])
       else if (cv - a) / |a| > 0.15 then
         (["gaap_nongaap_mixing"], [MisleadingReason.gaapNongaapMixing])
       else ([], [])) := by
  with_unfolding_all rfl

theorem run_heuristics_unknown_eps (cv a : ℚ) (hane : a ≠ 0)
    (hex : (cv - a) / |a| > 0.15) :
    run_all_heuristics (epsClaimOf "unknown" cv) (epsStoreOf a) 2025 1 =
      (["gaap_nongaap_mixing"], [MisleadingReason.gaapNongaapMixing]) := by
  have hch : check_cherry_picking_timeframe (epsClaimOf "unknown" cv)
      (epsStoreOf a) 2025 1 = ([], []) := by with_unfolding_all rfl
  have hlb : check_low_base_exaggeration (epsClaimOf "unknown" cv)
      (epsStoreOf a) 2025 1 = ([], []) := by with_unfolding_all rfl
  unfold run_all_heuristics
  rw [mix_eps_unknown, hch, hlb]
  simp [hane, hex]

theorem c5_tol_try (cv a : ℚ) (ha : a > 0) (hex : (cv - a) / a > 0.15)
    (hle : cv ≤ 1.3 * a)
    (htol : |cv - a| ≤ EPS_ABSOLUTE_TOLERANCE) :
    verdictOf (verify_single_claim (epsClaimOf "unknown" cv) "T" 2025 1
        (epsStoreOf a)) = some "misleading" := by
  have hane : a ≠ 0 := ne_of_gt ha
  have habs : |a| = a := abs_of_pos ha
  have hex' : (cv - a) / |a| > 0.15 := by rw [habs]; exact hex
  rw [eps_preamble_unknown]
  have hlook : lookup_value (epsStoreOf a) "eps_diluted" 2025 1 false =
      some (a, "fmp") := by with_unfolding_all rfl
  have h13 : ¬ (cv > a * 1.30) := by nlinarith
  unfold absolutePlain
  simp only [catEps, Option.getD_some]
  simp only [hlook,
    dg_eps cv a (pyLower "Earnings per share was excellent").data ha hle]
  simp only [orElseV, withNum]
  simp [ha, h13, VALUE_CHECK_METRICS]
  rw [if_pos htol]
  unfold apply_misleading_checks
  rw [run_heuristics_unknown_eps cv a hane hex']
  rfl

theorem c5_band_try (cv a : ℚ) (ha : a > 0) (hex : (cv - a) / a > 0.15)
    (hle : cv ≤ 1.3 * a)
    (htol : ¬ (|cv - a| ≤ EPS_ABSOLUTE_TOLERANCE)) :
    verdictOf (verify_single_claim (epsClaimOf "unknown" cv) "T" 2025 1
        (epsStoreOf a)) = some "misleading" := by
  have hane : a ≠ 0 := ne_of_gt ha
  have habs : |a| = a := abs_of_pos ha
  have hex' : (cv - a) / |a| > 0.15 := by rw [habs]; exact hex
  have hgt : cv - a > 0 := by
    by_contra hc
    push_neg at hc
    have : (cv - a) / a ≤ 0 := div_nonpos_of_nonpos_of_nonneg (by linarith) (le_of_lt ha)
    linarith
  have hcvgt : cv > a := by linarith
  have hband : bandOf (.fin (|cv - a| / |a|)) (get_tolerance "eps_diluted" false) =
      "mismatch" := by
    have hT : get_tolerance "eps_diluted" false = ⟨0.01, 0.02⟩ := by
      with_unfolding_all rfl
    have hp : |cv - a| / |a| > 0.15 := by
      rw [abs_of_pos hgt, habs]
      exact hex
    rw [bandOf, hT]
    simp only [RF.leq]
    split_ifs with h1 h2
    · norm_num at h1
      exfalso; nlinarith
    · norm_num at h2
      exfalso; nlinarith
    · rfl
  rw [eps_preamble_unknown]
  have hlook : lookup_value (epsStoreOf a) "eps_diluted" 2025 1 false =
      some (a, "fmp") := by with_unfolding_all rfl
  have h13 : ¬ (cv > a * 1.30) := by nlinarith
  unfold absolutePlain
  simp only [catEps, Option.getD_some]
  simp only [hlook,
    dg_eps cv a (pyLower "Earnings per share was excellent").data ha hle]
  simp only [orElseV, withNum]
  simp [ha, h13, VALUE_CHECK_METRICS]
  rw [if_neg htol]
  simp only [verify_absolute, withNum]
  simp [hane]
  rw [hband]
  simp [hcvgt]
  unfold apply_misleading_checks
  rw [run_heuristics_unknown_eps cv a hane hex']
  rfl

/-- C5 (amended): for an absolute diluted-EPS claim with unknown GAAP basis,
a neutral quote (no non-GAAP keyword) and positive GAAP actual `a`, if the
claimed value exceeds the actual by more than 15 percent but by at most 30
percent (beyond 30 percent the definition-gap check intervenes first), the
final verdict is `misleading` — the gaap/non-GAAP mixing heuristic escalates
whatever the numeric comparison produced. -/
theorem C5_eps_unknown_over15_misleading (cv a : ℚ) (ha : a > 0)
    (hex : (cv - a) / a > 0.15) (hle : cv ≤ 1.3 * a) :
    verdictOf (verify_single_claim (epsClaimOf "unknown" cv) "T" 2025 1
        (epsStoreOf a)) = some "misleading" := by
  by_cases htol : |cv - a| ≤ EPS_ABSOLUTE_TOLERANCE
  · exact c5_tol_try cv a ha hex hle htol
  · exact c5_band_try cv a ha hex hle htol

/-- Witness for C5: claimed EPS 1.20 against GAAP actual 1.00 (a 20 percent
excess, unknown basis, neutral quote) is judged `misleading`. -/
theorem C5_eps_unknown_witness :
    verdictOf (verify_single_claim (epsClaimOf "unknown" 1.2) "T" 2025 1
        (epsStoreOf 1)) = some "misleading" :=
  C5_eps_unknown_over15_misleading 1.2 1 (by norm_num) (by norm_num) (by norm_num)

/-- C7 (amended): for an absolute diluted-EPS claim on a GAAP basis that
reaches numeric comparison (positive actual, claimed value within the
30 percent definition-gap guard), the fixed per-share absolute tolerance is
checked first: within it the verdict is `verified` regardless of the
percentage bands; beyond it the generic percentage-difference bands decide.
Concretely, claimed 1.62 against actual 1.61 is `verified`. -/
theorem C7_eps_absolute_tolerance_precedence (cv a : ℚ) (ha : a > 0)
    (hle : cv ≤ 1.3 * a) :
    (|cv - a| ≤ EPS_ABSOLUTE_TOLERANCE →
      verdictOf (verify_single_claim (epsClaimOf "gaap" cv) "T" 2025 1
        (epsStoreOf a)) = some "verified") ∧
    (¬ (|cv - a| ≤ EPS_ABSOLUTE_TOLERANCE) →
      verdictOf (verify_single_claim (epsClaimOf "gaap" cv) "T" 2025 1
        (epsStoreOf a)) =
        some (bandOf (.fin (|cv - a| / |a|)) (get_tolerance "eps_diluted" false))) ∧
    verdictOf (verify_single_claim (epsClaimOf "gaap" 1.62) "T" 2025 1
        (epsStoreOf 1.61)) = some "verified" := by
  refine ⟨fun htol => c7_try cv a ha hle htol,
         fun htol => c7_band_try cv a ha hle htol, ?_⟩
  exact c7_try 1.62 1.61 (by norm_num) (by norm_num)
    (by rw [show |(1.62 : ℚ) - 1.61| = 0.01 by norm_num]; norm_num [EPS_ABSOLUTE_TOLERANCE])

/-- Witness for C7: at actual 1.61 the hypotheses hold and the 1.62-claim
conjunct gives `verified`. -/
theorem C7_eps_tolerance_witness :
    verdictOf (verify_single_claim (epsClaimOf "gaap" 1.62) "T" 2025 1
        (epsStoreOf 1.61)) = some "verified" :=
  (C7_eps_absolute_tolerance_precedence 1.62 1.61 (by norm_num) (by norm_num)).2.2

/-! ## Totality and explanation invariants (C2, C4) -/

set_option maxHeartbeats 1600000

/-- `normalize_claimed_value` succeeds whenever the claimed value is present. -/
theorem normalize_some_ok (x : ℚ) (unit : String) (scale : Option String) :
    ∃ n, normalize_claimed_value (some x) unit scale = .ok (some n) := by
  unfold normalize_claimed_value
  split_ifs <;> exact ⟨_, rfl⟩

/-- `_definition_gap_check` never raises on a present normalized value. -/
theorem definition_gap_check_some_ok (metric : String) (n a : ℚ)
    (ql : List Char) :
    ∃ g, definition_gap_check metric (some n) a ql = .ok g := by
  simp only [definition_gap_check]
  split_ifs <;> exact ⟨_, rfl⟩

/-- `verify_growth` never raises on a present claimed percentage. -/
theorem verify_growth_some_ok (c cur pri : ℚ) :
    ∃ g, verify_growth (some c) cur pri = .ok g := by
  unfold verify_growth
  cases compute_yoy_growth cur pri <;> exact ⟨_, rfl⟩

/-- `verify_margin` never raises on a present claimed margin. -/
theorem verify_margin_some_ok (c num den : ℚ) :
    ∃ g, verify_margin (some c) num den = .ok g := by
  unfold verify_margin
  cases compute_margin num den <;> exact ⟨_, rfl⟩

/-- `orElseV` is total when both sides are. -/
theorem orElseV_ok (a : Except Unit (Option VerdictRec))
    (k : Unit → Except Unit VerdictRec)
    (ha : ∃ o, a = .ok o) (hk : ∃ r, k () = .ok r) :
    ∃ r, orElseV a k = .ok r := by
  obtain ⟨o, ho⟩ := ha
  subst ho
  cases o with
  | none => exact hk
  | some v => exact ⟨v, rfl⟩

/-- In the catalog, every ratio-computed entry carries its field pair. -/
theorem catalog_ratio_has_fields (metric : String) (c : CatalogEntry)
    (h : get_catalog_entry metric = some c) (hr : c.computation = "ratio") :
    c.fmp_fields.isSome := by
  unfold get_catalog_entry at h
  by_cases hc0 : metric = "revenue"
  · rw [if_pos hc0] at h
    injection h with h2
    subst h2
    exact absurd hr (by decide)
  rw [if_neg hc0] at h
  by_cases hc1 : metric = "eps_basic"
  · rw [if_pos hc1] at h
    injection h with h2
    subst h2
    exact absurd hr (by decide)
  rw [if_neg hc1] at h
  by_cases hc2 : metric = "eps_diluted"
  · rw [if_pos hc2] at h
    injection h with h2
    subst h2
    exact absurd hr (by decide)
  rw [if_neg hc2] at h
  by_cases hc3 : metric = "gross_profit"
  · rw [if_pos hc3] at h
    injection h with h2
    subst h2
    exact absurd hr (by decide)
  rw [if_neg hc3] at h
  by_cases hc4 : metric = "gross_margin"
  · rw [if_pos hc4] at h
    injection h with h2
    subst h2
    rfl
  rw [if_neg hc4] at h
  by_cases hc5 : metric = "operating_income"
  · rw [if_pos hc5] at h
    injection h with h2
    subst h2
    exact absurd hr (by decide)
  rw [if_neg hc5] at h
  by_cases hc6 : metric = "operating_margin"
  · rw [if_pos hc6] at h
    injection h with h2
    subst h2
    rfl
  rw [if_neg hc6] at h
  by_cases hc7 : metric = "net_income"
  · rw [if_pos hc7] at h
    injection h with h2
    subst h2
    exact absurd hr (by decide)
  rw [if_neg hc7] at h
  by_cases hc8 : metric = "ebitda"
  · rw [if_pos hc8] at h
    injection h with h2
    subst h2
    exact absurd hr (by decide)
  rw [if_neg hc8] at h
  by_cases hc9 : metric = "free_cash_flow"
  · rw [if_pos hc9] at h
    injection h with h2
    subst h2
    exact absurd hr (by decide)
  rw [if_neg hc9] at h
  by_cases hc10 : metric = "operating_cash_flow"
  · rw [if_pos hc10] at h
    injection h with h2
    subst h2
    exact absurd hr (by decide)
  rw [if_neg hc10] at h
  by_cases hc11 : metric = "cost_of_revenue"
  · rw [if_pos hc11] at h
    injection h with h2
    subst h2
    exact absurd hr (by decide)
  rw [if_neg hc11] at h
  by_cases hc12 : metric = "capital_expenditures"
  · rw [if_pos hc12] at h
    injection h with h2
    subst h2
    exact absurd hr (by decide)
  rw [if_neg hc12] at h
  by_cases hc13 : metric = "operating_expenses"
  · rw [if_pos hc13] at h
    injection h with h2
    subst h2
    exact absurd hr (by decide)
  rw [if_neg hc13] at h
  by_cases hc14 : metric = "research_and_development"
  · rw [if_pos hc14] at h
    injection h with h2
    subst h2
    exact absurd hr (by decide)
  rw [if_neg hc14] at h
  by_cases hc15 : metric = "cash_and_marketable_securities"
  · rw [if_pos hc15] at h
    injection h with h2
    subst h2
    exact absurd hr (by decide)
  rw [if_neg hc15] at h
  by_cases hc16 : metric = "total_debt"
  · rw [if_pos hc16] at h
    injection h with h2
    subst h2
    exact absurd hr (by decide)
  rw [if_neg hc16] at h
  by_cases hc17 : metric = "net_cash"
  · rw [if_pos hc17] at h
    injection h with h2
    subst h2
    exact absurd hr (by decide)
  rw [if_neg hc17] at h
  injection h

/-- `_apply_misleading_checks` preserves the presence of an explanation. -/
theorem apply_misleading_explanation (r : VerdictRec) (c : Claim)
    (fs : FactStore) (y q : Int) (h : r.explanation.isSome) :
    (apply_misleading_checks r c fs y q).explanation.isSome := by
  simp only [apply_misleading_checks]
  split_ifs <;> simp_all

/-- The plain absolute path never raises on a present normalized value. -/
theorem absolutePlain_total (claim : Claim) (ticker : String) (fs : FactStore)
    (r0 : VerdictRec) (metric : String) (n : ℚ) (approx : Bool) (gaap : String)
    (ql : List Char) (cat : CatalogEntry) (y q : Int) (uca : Bool) :
    ∃ r, absolutePlain claim ticker fs r0 metric (some n) approx gaap ql cat
        y q uca = .ok r := by
  unfold absolutePlain
  simp only []
  cases hl : lookup_value fs (cat.fmp_field.getD metric) y q uca with
  | none => exact ⟨_, rfl⟩
  | some p =>
    obtain ⟨av, src⟩ := p
    obtain ⟨g, hg⟩ := definition_gap_check_some_ok metric n av ql
    simp only [hg]
    cases g with
    | some fe => exact ⟨_, rfl⟩
    | none =>
      refine orElseV_ok _ _ ?_ (orElseV_ok _ _ ?_ (orElseV_ok _ _ ?_
        (orElseV_ok _ _ ?_ (orElseV_ok _ _ ?_ (orElseV_ok _ _ ?_
          (orElseV_ok _ _ ?_ ⟨_, rfl⟩)))))) <;>
        (simp only [withNum]
         split_ifs <;> exact ⟨_, rfl⟩)

/-- The total-expenses reinterpretation never raises on a present value. -/
theorem totalExpensesCheck_total (claim : Claim) (fs : FactStore)
    (r0 : VerdictRec) (metric : String) (n : ℚ) (approx : Bool)
    (ql : List Char) (y q : Int) (uca : Bool) :
    ∃ o, totalExpensesCheck claim fs r0 metric (some n) approx ql y q uca =
      .ok o := by
  unfold totalExpensesCheck
  by_cases hm : metric = "operating_expenses"
  · simp only [if_pos hm]
    cases hc : lookup_value fs "cost_of_revenue" y q uca with
    | none =>
      cases ho : lookup_value fs "operating_expenses" y q uca <;> exact ⟨_, rfl⟩
    | some c =>
      cases ho : lookup_value fs "operating_expenses" y q uca with
      | none => exact ⟨_, rfl⟩
      | some o =>
        simp only [withNum]
        split_ifs <;>
          first
            | exact ⟨_, rfl⟩
            | (simp only []
               split_ifs <;> exact ⟨_, rfl⟩)
  · simp only [if_neg hm]
    exact ⟨_, rfl⟩

/-- The multi-period absolute path never raises on a present value. -/
theorem absoluteMultiperiod_total (claim : Claim) (fs : FactStore)
    (r0 : VerdictRec) (metric : String) (n : ℚ) (approx : Bool)
    (ql : List Char) (cat : CatalogEntry) (tq ty tgq : Int) (uca : Bool) :
    ∃ r, absoluteMultiperiod claim fs r0 metric (some n) approx ql cat
        tq ty tgq uca = .ok r := by
  unfold absoluteMultiperiod
  split_ifs with h1 h2
  · exact ⟨_, rfl⟩
  · simp only []
    cases hd : determine_multiperiod_periods ql ty tgq with
    | none => exact ⟨_, rfl⟩
    | some pl =>
      obtain ⟨periods, label⟩ := pl
      simp only []
      cases hs : (sum_metric_for_periods fs (cat.fmp_field.getD metric)
          periods uca).total with
      | none => exact ⟨_, rfl⟩
      | some actual_sum =>
        obtain ⟨g, hg⟩ := definition_gap_check_some_ok metric n actual_sum ql
        simp only [hg]
        cases g with
        | some fe => exact ⟨_, rfl⟩
        | none => exact ⟨_, rfl⟩
  · simp only []
    cases hd : determine_multiperiod_periods ql ty tq with
    | none => exact ⟨_, rfl⟩
    | some pl =>
      obtain ⟨periods, label⟩ := pl
      simp only []
      cases hs : (sum_metric_for_periods fs (cat.fmp_field.getD metric)
          periods uca).total with
      | none => exact ⟨_, rfl⟩
      | some actual_sum =>
        obtain ⟨g, hg⟩ := definition_gap_check_some_ok metric n actual_sum ql
        simp only [hg]
        cases g with
        | some fe => exact ⟨_, rfl⟩
        | none => exact ⟨_, rfl⟩

/-- The full-year absolute path never raises on a present value. -/
theorem absoluteFullYear_total (claim : Claim) (fs : FactStore)
    (r0 : VerdictRec) (metric : String) (n : ℚ) (approx : Bool)
    (ql : List Char) (cat : CatalogEntry) (ty tgq : Int) (uca : Bool) :
    ∃ r, absoluteFullYear claim fs r0 metric (some n) approx ql cat
        ty tgq uca = .ok r := by
  unfold absoluteFullYear
  split_ifs with h1
  · exact ⟨_, rfl⟩
  · simp only []
    cases hs : (sum_full_year_metric fs (cat.fmp_field.getD metric)
        ty uca).total with
    | none => exact ⟨_, rfl⟩
    | some annual_total =>
      obtain ⟨g, hg⟩ := definition_gap_check_some_ok metric n annual_total ql
      simp only [hg]
      cases g with
      | some fe => exact ⟨_, rfl⟩
      | none => exact ⟨_, rfl⟩

/-- The growth branch never raises on a present claimed percentage. -/
theorem growthBranch_total (claim : Claim) (fs : FactStore) (r0 : VerdictRec)
    (metric : String) (x : ℚ) (approx : Bool) (cat : CatalogEntry)
    (ty tgq : Int) (baselineO : Option (Int × Int)) (uca : Bool)
    (claim_type : String) :
    ∃ r, growthBranch claim fs r0 metric (some x) approx cat ty tgq
        baselineO uca claim_type = .ok r := by
  unfold growthBranch
  simp only []
  split_ifs
  all_goals
    first
      | exact ⟨_, rfl⟩
      | (cases hc : (sum_full_year_metric fs (cat.fmp_field.getD metric)
            ty uca).total with
         | none =>
           cases hp : (sum_full_year_metric fs (cat.fmp_field.getD metric)
               ((baselineO.getD (ty - 1, 0)).1) uca).total <;> exact ⟨_, rfl⟩
         | some current_sum =>
           cases hp : (sum_full_year_metric fs (cat.fmp_field.getD metric)
               ((baselineO.getD (ty - 1, 0)).1) uca).total with
           | none => exact ⟨_, rfl⟩
           | some prior_sum =>
             obtain ⟨g, hg⟩ := verify_growth_some_ok x current_sum prior_sum
             simp only [hg]
             cases g <;> exact ⟨_, rfl⟩)
      | (cases hb : baselineO with
         | none => exact ⟨_, rfl⟩
         | some bl =>
           obtain ⟨by1, bq1⟩ := bl
           simp only []
           cases hcur : lookup_value fs (cat.fmp_field.getD metric) ty tgq uca with
           | none =>
             cases hpri : lookup_value fs (cat.fmp_field.getD metric)
                 by1 bq1 uca <;> exact ⟨_, rfl⟩
           | some pc =>
             cases hpri : lookup_value fs (cat.fmp_field.getD metric)
                 by1 bq1 uca with
             | none => exact ⟨_, rfl⟩
             | some pp =>
               obtain ⟨current_val, s1⟩ := pc
               obtain ⟨prior_val, s2⟩ := pp
               simp only []
               obtain ⟨g, hg⟩ := verify_growth_some_ok x current_val prior_val
               simp only [hg]
               cases g with
               | none => exact ⟨_, rfl⟩
               | some comp =>
                 simp only []
                 split_ifs <;> exact ⟨_, rfl⟩)

/-- The margin field selection only raises when a ratio entry lacks its
field pair. -/
theorem fieldsE_ne_error (metric : String) (ql : List Char)
    (cat : CatalogEntry)
    (h2 : ¬metric = "operating_expenses" → cat.computation = "ratio")
    (hwf : cat.computation = "ratio" → cat.fmp_fields.isSome) (e : Unit) :
    (if metric = "operating_expenses" then
       Except.ok (if containsSub ql "sg&a".data = true then "sga_expenses"
                  else "operating_expenses", "revenue", "operating_margin")
     else
       match cat.fmp_fields with
       | some (nf, df) => Except.ok (nf, df, metric)
       | none => Except.error ()) ≠ Except.error e := by
  by_cases hm : metric = "operating_expenses"
  · simp [hm]
  · rw [if_neg hm]
    have hs := hwf (h2 hm)
    cases hf : cat.fmp_fields with
    | none => rw [hf] at hs; simp at hs
    | some p =>
      obtain ⟨a, b⟩ := p
      simp

/-- Variant of `fieldsE_ne_error` before the guard is simplified. -/
theorem fieldsE_ne_error2 (metric : String) (ql : List Char)
    (cat : CatalogEntry)
    (h2 : ¬(metric ≠ "operating_expenses" ∧ cat.computation ≠ "ratio"))
    (hwf : cat.computation = "ratio" → cat.fmp_fields.isSome) (e : Unit) :
    (if metric = "operating_expenses" then
       Except.ok (if containsSub ql "sg&a".data = true then "sga_expenses"
                  else "operating_expenses", "revenue", "operating_margin")
     else
       if cat.computation ≠ "ratio" then Except.error ()
       else
         match cat.fmp_fields with
         | some (nf, df) => Except.ok (nf, df, metric)
         | none => Except.error ()) ≠ Except.error e := by
  by_cases hm : metric = "operating_expenses"
  · simp [hm]
  · rw [if_neg hm]
    have hr : cat.computation = "ratio" := by
      by_contra hc
      exact h2 ⟨hm, hc⟩
    rw [if_neg (by simp [hr])]
    have hs := hwf hr
    cases hf : cat.fmp_fields with
    | none => rw [hf] at hs; simp at hs
    | some p =>
      obtain ⟨a, b⟩ := p
      simp

/-- `verify_margin` never raises on a present claimed value. -/
theorem verify_margin_ne_error (c n d : ℚ) (e : Unit) :
    verify_margin (some c) n d ≠ .error e := by
  obtain ⟨g, hg⟩ := verify_margin_some_ok c n d
  simp [hg]

/-- The margin branch never raises on a present claimed value, given the
catalog invariant that ratio entries carry their field pair. -/
theorem marginBranch_total (claim : Claim) (fs : FactStore) (r0 : VerdictRec)
    (metric : String) (x : ℚ) (approx : Bool) (ql : List Char)
    (cat : CatalogEntry) (ty tgq : Int) (uca : Bool) (bps : Bool)
    (hwf : cat.computation = "ratio" → cat.fmp_fields.isSome) :
    ∃ r, marginBranch claim fs r0 metric (some x) approx ql cat ty tgq uca
        bps = .ok r := by
  unfold marginBranch
  simp only [withNum]
  repeat' split
  all_goals
    first
      | exact ⟨_, rfl⟩
      | exact (fieldsE_ne_error metric ql cat (by assumption) hwf _
          (by assumption)).elim
      | exact (fieldsE_ne_error2 metric ql cat (by assumption) hwf _
          (by assumption)).elim
      | exact (verify_margin_ne_error x _ _ _ (by assumption)).elim

/-- `normalize_claimed_value` never raises on a present value. -/
theorem normalize_ne_error (x : ℚ) (u : String) (sc : Option String)
    (e : Unit) : normalize_claimed_value (some x) u sc ≠ .error e := by
  obtain ⟨n, hn⟩ := normalize_some_ok x u sc
  simp [hn]

/-- The normalized value is present when the claimed value is. -/
theorem normalized_isSome (x : ℚ) (u : String) (sc : Option String)
    (nO : Option ℚ) (h : normalize_claimed_value (some x) u sc = .ok nO) :
    ∃ n, nO = some n := by
  obtain ⟨n, hn⟩ := normalize_some_ok x u sc
  injection (hn.symm.trans h) with h2
  exact ⟨n, h2.symm⟩

/-- The engine is total on claims whose claimed value is present. -/
theorem verify_single_claim_total (claim : Claim) (ticker : String)
    (ty tq : Int) (fs : FactStore) (x : ℚ)
    (hv : claim.claimed_value = some x) :
    ∃ r, verify_single_claim claim ticker ty tq fs = .ok r := by
  unfold verify_single_claim
  lift_lets
  extract_lets m0 ct cv u qlw ql m1 M sc g ap r0 mp bps prd tgy tgq2 uca2
  have hcv : cv = some x := hv
  rw [hcv]
  repeat' split
  all_goals
    first
      | exact ⟨_, rfl⟩
      | exact (normalize_ne_error _ _ _ _ (by assumption)).elim
      | apply growthBranch_total
      | (apply marginBranch_total
         intro hrat
         exact catalog_ratio_has_fields _ _ (by assumption) hrat)
      | (obtain ⟨n, hn⟩ := normalized_isSome x u sc _ (by assumption)
         subst hn
         first
           | apply absoluteMultiperiod_total
           | apply absoluteFullYear_total
           | (refine orElseV_ok _ _ ?_ ?_ <;>
               first
                 | apply totalExpensesCheck_total
                 | apply absolutePlain_total))

/-- Every successful verdict of this computation carries an explanation. -/
def expOk : Except Unit VerdictRec → Prop
  | .ok r => r.explanation.isSome = true
  | .error _ => True

/-- Same invariant for an optional early-return verdict. -/
def expOkO : Except Unit (Option VerdictRec) → Prop
  | .ok (some v) => v.explanation.isSome = true
  | _ => True

theorem expOk_orElseV (a : Except Unit (Option VerdictRec))
    (k : Unit → Except Unit VerdictRec)
    (ha : expOkO a) (hk : expOk (k ())) : expOk (orElseV a k) := by
  unfold orElseV
  cases a with
  | error e => exact True.intro
  | ok o =>
    cases o with
    | none => exact hk
    | some v => exact ha

theorem expOkO_guard (P : Prop) [Decidable P] (nO : Option ℚ)
    (f : ℚ → Except Unit (Option VerdictRec))
    (hf : ∀ n, expOkO (f n)) :
    expOkO (if P then withNum nO f else .ok none) := by
  split
  · cases nO with
    | none => exact True.intro
    | some n => exact hf n
  · exact True.intro

theorem expOk_absoluteMultiperiod (claim : Claim) (fs : FactStore)
    (r0 : VerdictRec) (metric : String) (nO : Option ℚ) (approx : Bool)
    (ql : List Char) (cat : CatalogEntry) (tq ty tgq : Int) (uca : Bool) :
    expOk (absoluteMultiperiod claim fs r0 metric nO approx ql cat
      tq ty tgq uca) := by
  unfold absoluteMultiperiod
  try simp only []
  repeat' split
  all_goals
    first
      | exact True.intro
      | rfl
      | (refine apply_misleading_explanation _ _ _ _ _ ?_
         rfl)

theorem expOk_absoluteFullYear (claim : Claim) (fs : FactStore)
    (r0 : VerdictRec) (metric : String) (nO : Option ℚ) (approx : Bool)
    (ql : List Char) (cat : CatalogEntry) (ty tgq : Int) (uca : Bool) :
    expOk (absoluteFullYear claim fs r0 metric nO approx ql cat ty tgq uca) := by
  unfold absoluteFullYear
  try simp only []
  repeat' split
  all_goals
    first
      | exact True.intro
      | rfl
      | (refine apply_misleading_explanation _ _ _ _ _ ?_
         rfl)

theorem expOkO_totalExpenses (claim : Claim) (fs : FactStore)
    (r0 : VerdictRec) (metric : String) (nO : Option ℚ) (approx : Bool)
    (ql : List Char) (ty tgq : Int) (uca : Bool) :
    expOkO (totalExpensesCheck claim fs r0 metric nO approx ql ty tgq uca) := by
  unfold totalExpensesCheck
  unfold withNum
  try simp only []
  repeat' split
  all_goals
    first
      | exact True.intro
      | rfl
      | (refine apply_misleading_explanation _ _ _ _ _ ?_
         rfl)

theorem expOk_absolutePlain (claim : Claim) (ticker : String) (fs : FactStore)
    (r0 : VerdictRec) (metric : String) (nO : Option ℚ) (approx : Bool)
    (gaap : String) (ql : List Char) (cat : CatalogEntry) (y q : Int)
    (uca : Bool) :
    expOk (absolutePlain claim ticker fs r0 metric nO approx gaap ql cat
      y q uca) := by
  unfold absolutePlain
  try simp only []
  split
  · rfl
  · split
    · exact True.intro
    · rfl
    · refine expOk_orElseV _ _ (expOkO_guard _ _ _ ?_) ?_
      · intro n
        split <;> first | rfl | exact True.intro
      refine expOk_orElseV _ _ (expOkO_guard _ _ _ ?_) ?_
      · intro n
        split <;> first | rfl | exact True.intro
      refine expOk_orElseV _ _ (expOkO_guard _ _ _ ?_) ?_
      · intro n
        split <;> first | rfl | exact True.intro
      refine expOk_orElseV _ _ (expOkO_guard _ _ _ ?_) ?_
      · intro n
        split <;> first | rfl | exact True.intro
      refine expOk_orElseV _ _ (expOkO_guard _ _ _ ?_) ?_
      · intro n
        split <;> first | rfl | exact True.intro
      refine expOk_orElseV _ _ (expOkO_guard _ _ _ ?_) ?_
      · intro n
        split <;> first | rfl | exact True.intro
      refine expOk_orElseV _ _ (expOkO_guard _ _ _ ?_) ?_
      · intro n
        split <;>
          first
            | (refine apply_misleading_explanation _ _ _ _ _ ?_
               rfl)
            | exact True.intro
      repeat' split
      all_goals
        first
          | exact True.intro
          | rfl
          | (refine apply_misleading_explanation _ _ _ _ _ ?_
             rfl)

theorem expOk_growthBranch (claim : Claim) (fs : FactStore) (r0 : VerdictRec)
    (metric : String) (cvO : Option ℚ) (approx : Bool) (cat : CatalogEntry)
    (ty tgq : Int) (baselineO : Option (Int × Int)) (uca : Bool)
    (claim_type : String) :
    expOk (growthBranch claim fs r0 metric cvO approx cat ty tgq
      baselineO uca claim_type) := by
  unfold growthBranch
  try simp only []
  repeat' split
  all_goals
    first
      | exact True.intro
      | rfl
      | (refine apply_misleading_explanation _ _ _ _ _ ?_
         rfl)

theorem expOk_marginBranch (claim : Claim) (fs : FactStore) (r0 : VerdictRec)
    (metric : String) (cvO : Option ℚ) (approx : Bool) (ql : List Char)
    (cat : CatalogEntry) (ty tgq : Int) (uca : Bool) (bps : Bool) :
    expOk (marginBranch claim fs r0 metric cvO approx ql cat ty tgq uca
      bps) := by
  unfold marginBranch
  unfold withNum
  try simp only []
  repeat' split
  all_goals
    first
      | exact True.intro
      | rfl
      | (refine apply_misleading_explanation _ _ _ _ _ ?_
         rfl)

/-- Every successful verdict of the engine carries an explanation. -/
theorem expOk_verify_single_claim (claim : Claim) (ticker : String)
    (ty tq : Int) (fs : FactStore) :
    expOk (verify_single_claim claim ticker ty tq fs) := by
  unfold verify_single_claim
  lift_lets
  extract_lets m0 ct cv u qlw ql m1 M sc g ap r0 mp bps prd tgy tgq2 uca2
  repeat' split
  all_goals
    first
      | exact True.intro
      | rfl
      | apply expOk_absoluteMultiperiod
      | apply expOk_absoluteFullYear
      | (refine expOk_orElseV _ _ ?_ ?_ <;>
          first
            | apply expOkO_totalExpenses
            | apply expOk_absolutePlain)
      | apply expOk_growthBranch
      | apply expOk_marginBranch

/-- A claim with a value but no metric field. -/
def noMetricClaim : Claim :=
  { baseTestClaim with metric_type := none, quote_text := "Results were solid" }

/-- The verdict the engine returns for `noMetricClaim`. -/
def noMetricRec : VerdictRec :=
  { claim_id := "claim_test", claimed_value := some 100,
    explanation := some (.metricNotInCatalog "other"),
    verdict := "unverifiable" }

/-- C2 (amended): for every claim whose `claimed_value` is present the engine
returns a verdict record and never raises, whatever the remaining fields
hold; and a claim missing its metric field yields `unverifiable` with the
generic catalog explanation.  (A claim missing `claimed_value` itself raises
`TypeError` in the absolute branch; see the counterexample.) -/
theorem C2_engine_total_when_value_present (claim : Claim) (ticker : String)
    (ty tq : Int) (fs : FactStore) (x : ℚ)
    (hv : claim.claimed_value = some x) :
    (∃ r, verify_single_claim claim ticker ty tq fs = .ok r) ∧
    verify_single_claim noMetricClaim "T" 2025 1 (mkStore []) =
      .ok noMetricRec := by
  refine ⟨verify_single_claim_total claim ticker ty tq fs x hv, ?_⟩
  with_unfolding_all rfl

/-- Witness for C2: a concrete diluted-EPS claim with a present value is
processed without raising, and the missing-metric claim is `unverifiable`. -/
theorem C2_total_witness :
    (∃ r, verify_single_claim (epsClaimOf "gaap" 1.62) "T" 2025 1
        (epsStoreOf 1.61) = .ok r) ∧
    verify_single_claim noMetricClaim "T" 2025 1 (mkStore []) =
      .ok noMetricRec :=
  C2_engine_total_when_value_present (epsClaimOf "gaap" 1.62) "T" 2025 1
    (epsStoreOf 1.61) 1.62 rfl

/-- C4 (amended): whenever the engine returns at all, an `unverifiable`
verdict record carries a primary explanation.  (Not every `unverifiable`
verdict carries a flag; see the counterexample.) -/
theorem C4_unverifiable_has_explanation (claim : Claim) (ticker : String)
    (ty tq : Int) (fs : FactStore) (r : VerdictRec)
    (h : verify_single_claim claim ticker ty tq fs = .ok r)
    (hu : r.verdict = "unverifiable") :
    r.explanation.isSome := by
  have hx := expOk_verify_single_claim claim ticker ty tq fs
  rw [h] at hx
  exact hx

/-- A guidance claim, which the engine rejects in its preamble. -/
def c4wClaim : Claim := { baseTestClaim with claim_type := some "guidance" }

/-- The verdict the engine returns for `c4wClaim`. -/
def c4wRec : VerdictRec :=
  { claim_id := "claim_test", claimed_value := some 100,
    flags := ["guidance_claim"], explanation := some .guidanceClaim,
    verdict := "unverifiable" }

/-- Witness for C4: the guidance claim is judged `unverifiable` and its
record indeed carries an explanation. -/
theorem C4_explanation_witness :
    (verify_single_claim c4wClaim "T" 2025 1 (mkStore []) = .ok c4wRec) ∧
    c4wRec.verdict = "unverifiable" ∧ c4wRec.explanation.isSome :=
  ⟨by with_unfolding_all rfl, rfl,
   C4_unverifiable_has_explanation c4wClaim "T" 2025 1 (mkStore []) c4wRec
     (by with_unfolding_all rfl) rfl⟩
end EarningsAnalyst
